import Mathlib

/-!
# Cicero Word Generator: the Zurich Instruments client code of AtticusServer

A shallow embedding of `AtticusServer/C/examples/ziUtils.h` and
`AtticusServer/C/examples/vcproj/setpointPID1.c`, together with the constants of
`AtticusServer/C/examples/vcproj/ziAPI.h` they use.

The vendor library behind `ziAPI.h` is not part of the sources: it is a parameter
(`ZIAPI σ`), a record of state-passing functions over an arbitrary library state `σ`.
Every call the embedded code makes is also appended to a trace, so that statements
about "what is passed to which function" can be made.
-/

namespace Cicero

/-! ## `ziAPI.h`: result codes (`enum ZIResult_enum`) -/

/-- Values of `enum ZIResult_enum` (an `int`-sized enumeration). -/
abbrev ZIResult_enum := Int

def ZI_INFO_BASE : ZIResult_enum := 0x0000
def ZI_INFO_SUCCESS : ZIResult_enum := 0x0000
def ZI_INFO_MAX : ZIResult_enum := ZI_INFO_SUCCESS + 1
def ZI_WARNING_BASE : ZIResult_enum := 0x4000
def ZI_WARNING_GENERAL : ZIResult_enum := 0x4000
def ZI_WARNING_UNDERRUN : ZIResult_enum := 0x4001
def ZI_WARNING_OVERFLOW : ZIResult_enum := 0x4002
def ZI_WARNING_NOTFOUND : ZIResult_enum := 0x4003
def ZI_WARNING_NO_ASYNC : ZIResult_enum := 0x4004
def ZI_WARNING_MAX : ZIResult_enum := ZI_WARNING_NO_ASYNC + 1
def ZI_ERROR_BASE : ZIResult_enum := 0x8000
def ZI_ERROR_GENERAL : ZIResult_enum := 0x8000
def ZI_ERROR_USB : ZIResult_enum := 0x8001
def ZI_ERROR_MALLOC : ZIResult_enum := 0x8002
def ZI_ERROR_MUTEX_INIT : ZIResult_enum := 0x8003
def ZI_ERROR_MUTEX_DESTROY : ZIResult_enum := 0x8004
def ZI_ERROR_MUTEX_LOCK : ZIResult_enum := 0x8005
def ZI_ERROR_MUTEX_UNLOCK : ZIResult_enum := 0x8006
def ZI_ERROR_THREAD_START : ZIResult_enum := 0x8007
def ZI_ERROR_THREAD_JOIN : ZIResult_enum := 0x8008
def ZI_ERROR_SOCKET_INIT : ZIResult_enum := 0x8009
def ZI_ERROR_SOCKET_CONNECT : ZIResult_enum := 0x800a
def ZI_ERROR_HOSTNAME : ZIResult_enum := 0x800b
def ZI_ERROR_CONNECTION : ZIResult_enum := 0x800c
def ZI_ERROR_TIMEOUT : ZIResult_enum := 0x800d
def ZI_ERROR_COMMAND : ZIResult_enum := 0x800e
def ZI_ERROR_SERVER_INTERNAL : ZIResult_enum := 0x800f
def ZI_ERROR_LENGTH : ZIResult_enum := 0x8010
def ZI_ERROR_FILE : ZIResult_enum := 0x8011
def ZI_ERROR_DUPLICATE : ZIResult_enum := 0x8012
def ZI_ERROR_READONLY : ZIResult_enum := 0x8013
def ZI_ERROR_DEVICE_NOT_VISIBLE : ZIResult_enum := 0x8014
def ZI_ERROR_DEVICE_IN_USE : ZIResult_enum := 0x8015
def ZI_ERROR_DEVICE_INTERFACE : ZIResult_enum := 0x8016
def ZI_ERROR_DEVICE_CONNECTION_TIMEOUT : ZIResult_enum := 0x8017
def ZI_ERROR_DEVICE_DIFFERENT_INTERFACE : ZIResult_enum := 0x8018
def ZI_ERROR_DEVICE_NEEDS_FW_UPGRADE : ZIResult_enum := 0x8019
def ZI_ERROR_ZIEVENT_DATATYPE_MISMATCH : ZIResult_enum := 0x801A
def ZI_ERROR_DEVICE_NOT_FOUND : ZIResult_enum := 0x801B
def ZI_ERROR_NOT_SUPPORTED : ZIResult_enum := 0x801C
def ZI_ERROR_TOO_MANY_CONNECTIONS : ZIResult_enum := 0x801D
def ZI_ERROR_NOT_ON_HF2 : ZIResult_enum := 0x801E
def ZI_ERROR_MAX : ZIResult_enum := ZI_ERROR_NOT_ON_HF2 + 1

/-- The three regions `enum ZIResult_enum` is "divided into" (its doc comment). -/
inductive Region where
  | info
  | warning
  | error
  deriving DecidableEq, Repr

/-- The region a result code lies in: `[ZI_INFO_BASE, ZI_INFO_MAX)`,
`[ZI_WARNING_BASE, ZI_WARNING_MAX)` or `[ZI_ERROR_BASE, ZI_ERROR_MAX)`; `none` for an
integer in none of them. -/
def regionOf (r : Int) : Option Region :=
  if ZI_INFO_BASE ≤ r ∧ r < ZI_INFO_MAX then some Region.info
  else if ZI_WARNING_BASE ≤ r ∧ r < ZI_WARNING_MAX then some Region.warning
  else if ZI_ERROR_BASE ≤ r ∧ r < ZI_ERROR_MAX then some Region.error
  else none

/-! ## `ziAPI.h`: API levels and scalar types -/

/-- Values of `enum ZIAPIVersion_enum`, held in a 32-bit `int`. -/
abbrev ZIAPIVersion_enum := Int

def ZI_API_VERSION_0 : ZIAPIVersion_enum := 0
def ZI_API_VERSION_1 : ZIAPIVersion_enum := 1
def ZI_API_VERSION_4 : ZIAPIVersion_enum := 4
def ZI_API_VERSION_5 : ZIAPIVersion_enum := 5
def ZI_API_VERSION_6 : ZIAPIVersion_enum := 6
def ZI_API_VERSION_MAX : ZIAPIVersion_enum := ZI_API_VERSION_6

/-- A `ZIConnection` is a pointer to a library-owned proxy; only its identity matters. -/
abbrev ZIConnection := Nat

/-- The C type `typedef int64_t ZIIntegerData`. -/
abbrev ZIIntegerData := Int

/-- The C type `typedef double ZIDoubleData`, kept as the 64-bit pattern of the double:
the embedded code only copies such values, it never computes with them. -/
structure ZIDoubleData where
  bits : Nat
  deriving DecidableEq, Repr

/-- Conversion `static_cast<uint16_t>(x)` of a 64-bit integer: reduction modulo `2^16`. -/
def toUInt16 (x : Int) : Int := x % 65536

/-- Conversion `static_cast<ZIAPIVersion_enum>(x)` of a 64-bit integer to the enumeration,
whose values live in a 32-bit two's-complement `int`. A value in that range is kept. For a
value outside it the language does not fix the result; the low 32 bits, read as signed,
are what the compiler of the project (`vcproj`) keeps, and statements about such values
rely only on the result being a 32-bit value. -/
def toEnum32 (x : Int) : Int := (x + 2147483648) % 4294967296 - 2147483648

/-- The integer is representable in the 32-bit `int` that holds an enumeration value. -/
def isInt32 (x : Int) : Prop := -2147483648 ≤ x ∧ x ≤ 2147483647

instance (x : Int) : Decidable (isInt32 x) := by unfold isInt32; exact inferInstance

/-! ## The vendor library as a parameter -/

/-- The functions of the vendor library that the embedded code calls. Each takes the
library state and returns the result code, what it stored through its output pointers,
and the new library state. -/
structure ZIAPI (σ : Type) where
  /-- `ziAPIInit(&conn)`: result and the connection stored in `*conn`. -/
  ziAPIInit : σ → ZIResult_enum × ZIConnection × σ
  /-- `ziAPIConnect(conn, hostname, port)`. -/
  ziAPIConnect : σ → ZIConnection → String → Int → ZIResult_enum × σ
  /-- `ziAPIDisconnect(conn)`. -/
  ziAPIDisconnect : σ → ZIConnection → ZIResult_enum × σ
  /-- `ziAPIDestroy(conn)`. -/
  ziAPIDestroy : σ → ZIConnection → ZIResult_enum × σ
  /-- `ziAPIConnectEx(conn, hostname, port, apiLevel, implementation)`;
  `implementation = none` is the `NULL` pointer. -/
  ziAPIConnectEx : σ → ZIConnection → String → Int → ZIAPIVersion_enum → Option String →
    ZIResult_enum × σ
  /-- `ziAPIConnectDevice(conn, deviceSerial, deviceInterface, interfaceParams)`. -/
  ziAPIConnectDevice : σ → ZIConnection → String → String → Option String →
    ZIResult_enum × σ
  /-- `ziAPIGetVersion(&version)`. -/
  ziAPIGetVersion : σ → ZIResult_enum × String × σ
  /-- `ziAPIGetRevision(&revision)`. -/
  ziAPIGetRevision : σ → ZIResult_enum × Nat × σ
  /-- `ziAPIGetValueD(conn, path, &value)`; `none`: `*value` is left as it was. -/
  ziAPIGetValueD : σ → ZIConnection → String → ZIResult_enum × Option ZIDoubleData × σ
  /-- `ziAPIGetValueI(conn, path, &value)`. -/
  ziAPIGetValueI : σ → ZIConnection → String → ZIResult_enum × ZIIntegerData × σ
  /-- `ziAPIGetValueString(conn, path, buffer, &length, bufferSize)`: result and the
  null-terminated string left in `buffer`. -/
  ziAPIGetValueString : σ → ZIConnection → String → Nat → ZIResult_enum × String × σ
  /-- `ziAPISetValueD(conn, path, value)`. -/
  ziAPISetValueD : σ → ZIConnection → String → ZIDoubleData → ZIResult_enum × σ
  /-- `ziAPISyncSetValueD(conn, path, &value)`: result and the content of `*value` when
  the function returns ("value holds the effectively written value"). -/
  ziAPISyncSetValueD : σ → ZIConnection → String → ZIDoubleData →
    ZIResult_enum × ZIDoubleData × σ
  /-- `ziAPISyncSetValueI(conn, path, &value)`, as `ziAPISyncSetValueD`. -/
  ziAPISyncSetValueI : σ → ZIConnection → String → ZIIntegerData →
    ZIResult_enum × ZIIntegerData × σ
  /-- `ziAPIGetError(result, &buffer, NULL)`: the static description of a result code. -/
  ziAPIGetError : ZIResult_enum → String
  /-- `ziAPIGetLastError(conn, buffer, bufferSize)`: result and what is written to
  `buffer` (`none`: the buffer is left unchanged). -/
  ziAPIGetLastError : σ → ZIConnection → Nat → ZIResult_enum × Option String × σ
  /-- `ziAPIDiscoveryFind(conn, deviceAddress, &deviceId)`. -/
  ziAPIDiscoveryFind : σ → ZIConnection → String → ZIResult_enum × String × σ
  /-- `ziAPIDiscoveryGetValueI(conn, deviceId, propName, &value)`. -/
  ziAPIDiscoveryGetValueI : σ → ZIConnection → String → String →
    ZIResult_enum × ZIIntegerData × σ
  /-- `ziAPIDiscoveryGetValueS(conn, deviceId, propName, &value)`. -/
  ziAPIDiscoveryGetValueS : σ → ZIConnection → String → String →
    ZIResult_enum × String × σ

/-- The text that `ziCreateAPISession` formats with `snprintf` and hands to
`ziAPIWriteDebugLog`, kept as format plus arguments. -/
inductive Message where
  /-- "`%s` is not discoverable." -/
  | notDiscoverable (deviceId : String)
  /-- "Discovered device `%s`." -/
  | discovered (deviceId : String)
  /-- "Creating an API Session with the Data Server running on `%s` on port `%llu` with
  API Level `%llu`." -/
  | creatingSession (serveraddress : String) (serverport : ZIIntegerData)
      (apilevel : ZIIntegerData)
  /-- "Device is already connected on interface `%s`." -/
  | alreadyConnected (connected : String)
  /-- "Device is not connected, available interfaces: `%s`." -/
  | notConnected (interfaces : String)
  /-- "Error: The device `%s` is not connected but could not read an available
  interface." -/
  | noInterface (deviceId : String)
  /-- "Will try to connect on: `%s`." -/
  | willConnect (interfaceConnection : String)
  /-- "Error whilst creating API Session and connecting device: `%s`. Details: `%s`." -/
  | sessionError (what : String) (extErrorMessage : String)
  deriving DecidableEq, Repr

/-- One observable action of the embedded code: a library call with its arguments and
what it returned, or a line written to a standard stream. -/
inductive Call where
  | ziAPIDiscoveryFind (conn : ZIConnection) (deviceAddress : String)
      (result : ZIResult_enum) (deviceId : String)
  | ziAPIDiscoveryGetValueI (conn : ZIConnection) (deviceId propName : String)
      (result : ZIResult_enum) (value : ZIIntegerData)
  | ziAPIDiscoveryGetValueS (conn : ZIConnection) (deviceId propName : String)
      (result : ZIResult_enum) (value : String)
  | ziAPIConnectEx (conn : ZIConnection) (hostname : String) (port : Int)
      (apiLevel : ZIAPIVersion_enum) (implementation : Option String)
      (result : ZIResult_enum)
  | ziAPIConnectDevice (conn : ZIConnection) (deviceSerial deviceInterface : String)
      (interfaceParams : Option String) (result : ZIResult_enum)
  | ziAPIDisconnect (conn : ZIConnection) (result : ZIResult_enum)
  | ziAPIWriteDebugLog (debugLevel : Int) (message : Message)
  | ziAPIGetError (result : ZIResult_enum) (buffer : String)
  | ziAPIGetLastError (conn : ZIConnection) (bufferSize : Nat) (result : ZIResult_enum)
      (buffer : Option String)
  /-- `fprintf(stderr, "Error: %s\n", message)` of `isError`. -/
  | stderrError (message : String)
  deriving DecidableEq, Repr

/-! ## `ziUtils.h` -/

/-- The test `resultCode != ZI_INFO_SUCCESS` shared by `isError` and `checkError`. -/
def isError (resultCode : ZIResult_enum) : Bool := resultCode != ZI_INFO_SUCCESS

/-- What `isError` does besides returning: on a non-success code it looks the message up
and prints it to `stderr`. -/
def isErrorCalls {σ : Type} (api : ZIAPI σ) (resultCode : ZIResult_enum) : List Call :=
  if isError resultCode then
    [Call.ziAPIGetError resultCode (api.ziAPIGetError resultCode),
     Call.stderrError (api.ziAPIGetError resultCode)]
  else []

/-- The C library function `strtok_r(str, delim, &saveptr)` at its first call: skip the
leading delimiter characters; `none` (the null pointer) when nothing is left, otherwise
the characters up to the next delimiter. -/
def strtok_r (str : String) (delim : String) : Option String :=
  match str.toList.dropWhile (fun c => delim.toList.contains c) with
  | [] => none
  | c :: rest => some (String.mk ((c :: rest).takeWhile (fun d => !delim.toList.contains d)))

/-- The outcome of a call of `ziCreateAPISession`. -/
structure SessionRun (σ : Type) where
  /-- The library state when the call ends. -/
  state : σ
  /-- The calls made, oldest first. -/
  trace : List Call
  /-- The `uint8_t` returned; `none` when the call does not return because a null
  pointer was handed to `strcmp` (undefined behaviour). -/
  ret : Option Nat
  /-- The content of `*deviceId`. -/
  deviceId : String

/-- The `catch (std::runtime_error& e)` block of `ziCreateAPISession`, entered from a
`checkError(resultCode)` that throws: `checkError` looks the message up, the handler
reads the last error, logs at level 4 and returns 1. -/
def catchRuntimeError {σ : Type} (api : ZIAPI σ) (s : σ) (tr : List Call)
    (conn : ZIConnection) (deviceId : String) (resultCode : ZIResult_enum) :
    SessionRun σ :=
  match api.ziAPIGetLastError s conn 1024 with
  | (rl, buffer, s1) =>
    { state := s1
      trace := tr ++ [Call.ziAPIGetError resultCode (api.ziAPIGetError resultCode),
        Call.ziAPIGetLastError conn 1024 rl buffer,
        Call.ziAPIWriteDebugLog 4
          (Message.sessionError (api.ziAPIGetError resultCode) (buffer.getD ""))]
      ret := some 1
      deviceId := deviceId }

/-- The tail of `ziCreateAPISession` after `ziAPIConnectEx` has succeeded (source lines
120 to 143): connect the device on its first interface unless it is connected. -/
def connectDeviceStep {σ : Type} (api : ZIAPI σ) (s : σ) (tr : List Call)
    (conn : ZIConnection) (deviceId : String) (connected : String) : SessionRun σ :=
  if connected ≠ "" then
    { state := s
      trace := tr ++ [Call.ziAPIWriteDebugLog 0 (Message.alreadyConnected connected)]
      ret := some 0
      deviceId := deviceId }
  else
    match api.ziAPIDiscoveryGetValueS s conn deviceId "interfaces" with
    | (r1, interfaces, s1) =>
      let tr1 := tr ++ [Call.ziAPIDiscoveryGetValueS conn deviceId "interfaces" r1 interfaces]
      if isError r1 then catchRuntimeError api s1 tr1 conn deviceId r1
      else
        let tr2 := tr1 ++ [Call.ziAPIWriteDebugLog 0 (Message.notConnected interfaces)]
        match strtok_r interfaces "\n" with
        | none =>
          { state := s1, trace := tr2, ret := none, deviceId := deviceId }
        | some interfaceConnection =>
          if interfaceConnection = "" then
            { state := s1
              trace := tr2 ++ [Call.ziAPIWriteDebugLog 4 (Message.noInterface deviceId)]
              ret := some 1
              deviceId := deviceId }
          else
            let tr3 := tr2 ++
              [Call.ziAPIWriteDebugLog 0 (Message.willConnect interfaceConnection)]
            match api.ziAPIConnectDevice s1 conn deviceId interfaceConnection none with
            | (r2, s2) =>
              let tr4 := tr3 ++
                [Call.ziAPIConnectDevice conn deviceId interfaceConnection none r2]
              if isError r2 then catchRuntimeError api s2 tr4 conn deviceId r2
              else { state := s2, trace := tr4, ret := some 0, deviceId := deviceId }

/-- The local `apilevelConnection` of `ziCreateAPISession` (source lines 109 to 112):
`apilevel`, replaced by `maxSupportedApilevel` when that one is smaller. -/
def apilevelConnection (maxSupportedApilevel : ZIAPIVersion_enum)
    (apilevel : ZIIntegerData) : ZIIntegerData :=
  if maxSupportedApilevel < apilevel then maxSupportedApilevel else apilevel

/-- The function `ziCreateAPISession(conn, deviceAddress, maxSupportedApilevel, &deviceId)`
of `ziUtils.h`. -/
def ziCreateAPISession {σ : Type} (api : ZIAPI σ) (s : σ) (conn : ZIConnection)
    (deviceAddress : String) (maxSupportedApilevel : ZIAPIVersion_enum) : SessionRun σ :=
  match api.ziAPIDiscoveryFind s conn deviceAddress with
  | (r0, deviceId, s0) =>
  let tr0 := [Call.ziAPIDiscoveryFind conn deviceAddress r0 deviceId] ++ isErrorCalls api r0
  if isError r0 then
    { state := s0, trace := tr0, ret := some 1, deviceId := deviceId }
  else
  match api.ziAPIDiscoveryGetValueI s0 conn deviceId "discoverable" with
  | (r1, discoverable, s1) =>
  let tr1 := tr0 ++ [Call.ziAPIDiscoveryGetValueI conn deviceId "discoverable" r1 discoverable]
  if isError r1 then catchRuntimeError api s1 tr1 conn deviceId r1
  else if discoverable ≠ 1 then
    { state := s1
      trace := tr1 ++ [Call.ziAPIWriteDebugLog 4 (Message.notDiscoverable deviceId)]
      ret := some 1
      deviceId := deviceId }
  else
  let tr2 := tr1 ++ [Call.ziAPIWriteDebugLog 0 (Message.discovered deviceId)]
  match api.ziAPIDiscoveryGetValueS s1 conn deviceId "serveraddress" with
  | (r2, serveraddress, s2) =>
  let tr3 := tr2 ++
    [Call.ziAPIDiscoveryGetValueS conn deviceId "serveraddress" r2 serveraddress]
  if isError r2 then catchRuntimeError api s2 tr3 conn deviceId r2
  else
  match api.ziAPIDiscoveryGetValueI s2 conn deviceId "serverport" with
  | (r3, serverport, s3) =>
  let tr4 := tr3 ++ [Call.ziAPIDiscoveryGetValueI conn deviceId "serverport" r3 serverport]
  if isError r3 then catchRuntimeError api s3 tr4 conn deviceId r3
  else
  match api.ziAPIDiscoveryGetValueI s3 conn deviceId "apilevel" with
  | (r4, apilevel, s4) =>
  let tr5 := tr4 ++ [Call.ziAPIDiscoveryGetValueI conn deviceId "apilevel" r4 apilevel]
  if isError r4 then catchRuntimeError api s4 tr5 conn deviceId r4
  else
  match api.ziAPIDiscoveryGetValueS s4 conn deviceId "connected" with
  | (r5, connected, s5) =>
  let tr6 := tr5 ++ [Call.ziAPIDiscoveryGetValueS conn deviceId "connected" r5 connected]
  if isError r5 then catchRuntimeError api s5 tr6 conn deviceId r5
  else
  let tr7 := tr6 ++
    [Call.ziAPIWriteDebugLog 0 (Message.creatingSession serveraddress serverport apilevel)]
  match api.ziAPIConnectEx s5 conn serveraddress (toUInt16 serverport)
    (toEnum32 (apilevelConnection maxSupportedApilevel apilevel)) none with
  | (r6, s6) =>
  let tr8 := tr7 ++ [Call.ziAPIConnectEx conn serveraddress (toUInt16 serverport)
    (toEnum32 (apilevelConnection maxSupportedApilevel apilevel)) none r6]
  if isError r6 then catchRuntimeError api s6 tr8 conn deviceId r6
  else connectDeviceStep api s6 tr8 conn deviceId connected

/-- What `ziApiServerVersionCheck` writes with `printf`: the three lines of the
version-mismatch warning, kept as the arguments of the format. -/
inductive StdoutLine where
  | versionMismatch (apiVersion : String) (apiRevision : Nat) (serverVersion : String)
      (serverRevision : ZIIntegerData)
  deriving DecidableEq, Repr

/-- The outcome of a call of `ziApiServerVersionCheck`. -/
structure VersionRun (σ : Type) where
  state : σ
  stdout : List StdoutLine
  /-- The `uint8_t` returned, or the message of the `std::runtime_error` that a
  `checkError` throws out of the function. -/
  ret : Except String Nat

/-- The function `ziApiServerVersionCheck(conn)` of `ziUtils.h`. -/
def ziApiServerVersionCheck {σ : Type} (api : ZIAPI σ) (s : σ) (conn : ZIConnection) :
    VersionRun σ :=
  match api.ziAPIGetRevision s with
  | (r0, apiRevision, s0) =>
  if isError r0 then
    { state := s0, stdout := [], ret := Except.error (api.ziAPIGetError r0) }
  else
  match api.ziAPIGetVersion s0 with
  | (r1, apiVersion, s1) =>
  if isError r1 then
    { state := s1, stdout := [], ret := Except.error (api.ziAPIGetError r1) }
  else
  match api.ziAPIGetValueI s1 conn "/zi/about/revision" with
  | (r2, serverRevision, s2) =>
  if isError r2 then
    { state := s2, stdout := [], ret := Except.error (api.ziAPIGetError r2) }
  else
  match api.ziAPIGetValueString s2 conn "/zi/about/version" 1024 with
  | (r3, serverVersion, s3) =>
  if isError r3 then
    { state := s3, stdout := [], ret := Except.error (api.ziAPIGetError r3) }
  else if apiVersion ≠ serverVersion then
    { state := s3
      stdout := [StdoutLine.versionMismatch apiVersion apiRevision serverVersion
        serverRevision]
      ret := Except.ok 0 }
  else
    { state := s3, stdout := [], ret := Except.ok 1 }

/-! ## `setpointPID1.c` -/

/-- The file-scope variables of `setpointPID1.c`. -/
structure Globals where
  retVal : ZIResult_enum
  retVal2 : ZIResult_enum
  conn : ZIConnection
  /-- The pointer `char* errBuffer`; `none` is the null pointer. -/
  errBuffer : Option String
  deriving DecidableEq, Repr

/-- The file-scope constant `serverAddress`. -/
def serverAddress : String := "localhost"

/-- A line the wrappers of `setpointPID1.c` write with `fprintf(stderr, ...)`, kept as
format plus argument. -/
inductive StderrLine where
  /-- "Can't init Connection: %s" -/
  | cantInit (errBuffer : String)
  /-- "Connection initialised: %d" -/
  | connectionInitialised (retVal : Int)
  /-- "Error, can't connect to the Data Server: `%s`." -/
  | cantConnect (errBuffer : String)
  /-- "Connected: %d" -/
  | connected (retVal : Int)
  /-- "Can't set parameter: %s" -/
  | cantSet (errBuffer : String)
  /-- "supposed do have set /dev574/pids/0/setpoint to %f" -/
  | supposedSet (value : ZIDoubleData)
  /-- "Can't toggle loek: %s" -/
  | cantToggle (errBuffer : String)
  /-- "supposed do toggle lock" -/
  | supposedToggle
  /-- "Can't get parameter: %s" -/
  | cantGet (errBuffer : String)
  /-- "value of /dev574/pids/0/setpoint is %f" -/
  | valueIs (value : ZIDoubleData)
  deriving DecidableEq, Repr

/-- The outcome of a call of one of the exported wrappers: everything the caller and the
process can observe afterwards. `out` is what the wrapper stored through its pointer
argument (`Unit` for a wrapper without one). -/
structure WrapperRun (σ : Type) (α : Type) where
  state : σ
  globals : Globals
  stderr : List StderrLine
  /-- The `int` returned to the caller. -/
  ret : Int
  out : α

/-- The wrapper `int ziInit(ZIConnection* conn)`. -/
def ziInit {σ : Type} (api : ZIAPI σ) (s : σ) (g : Globals) : WrapperRun σ ZIConnection :=
  match api.ziAPIInit s with
  | (r, conn, s1) =>
    if r ≠ ZI_INFO_SUCCESS then
      { state := s1
        globals := { g with retVal := r, errBuffer := some (api.ziAPIGetError r) }
        stderr := [StderrLine.cantInit (api.ziAPIGetError r)]
        ret := 1
        out := conn }
    else
      { state := s1
        globals := { g with retVal := r }
        stderr := [StderrLine.connectionInitialised r]
        ret := r
        out := conn }

/-- The wrapper `int ziConnect(ZIConnection conn)`. -/
def ziConnect {σ : Type} (api : ZIAPI σ) (s : σ) (g : Globals) (conn : ZIConnection) :
    WrapperRun σ Unit :=
  match api.ziAPIConnect s conn serverAddress 8005 with
  | (r, s1) =>
    if r ≠ ZI_INFO_SUCCESS then
      { state := s1
        globals := { g with retVal := r, errBuffer := some (api.ziAPIGetError r) }
        stderr := [StderrLine.cantConnect (api.ziAPIGetError r)]
        ret := r
        out := () }
    else
      { state := s1
        globals := { g with retVal := r }
        stderr := [StderrLine.connected r]
        ret := r
        out := () }

/-- The wrapper `int ziSetValueD(ZIConnection conn, ZIDoubleData value)`. -/
def ziSetValueD {σ : Type} (api : ZIAPI σ) (s : σ) (g : Globals) (conn : ZIConnection)
    (value : ZIDoubleData) : WrapperRun σ Unit :=
  match api.ziAPISetValueD s conn "/dev574/pids/0/setpoint" value with
  | (r, s1) =>
    if r ≠ ZI_INFO_SUCCESS then
      { state := s1
        globals := { g with retVal := r, errBuffer := some (api.ziAPIGetError r) }
        stderr := [StderrLine.cantSet (api.ziAPIGetError r)]
        ret := r
        out := () }
    else
      { state := s1
        globals := { g with retVal := r }
        stderr := [StderrLine.supposedSet value]
        ret := r
        out := () }

/-- The wrapper `int ziSyncSetValueD(ZIConnection conn, ZIDoubleData value)`. The
parameter `value` is the wrapper's own copy: the library overwrites it, the wrapper prints
it, and it is gone when the wrapper returns. -/
def ziSyncSetValueD {σ : Type} (api : ZIAPI σ) (s : σ) (g : Globals) (conn : ZIConnection)
    (value : ZIDoubleData) : WrapperRun σ Unit :=
  match api.ziAPISyncSetValueD s conn "/dev574/pids/0/setpoint" value with
  | (r, value1, s1) =>
    if r ≠ ZI_INFO_SUCCESS then
      { state := s1
        globals := { g with retVal := r, errBuffer := some (api.ziAPIGetError r) }
        stderr := [StderrLine.cantSet (api.ziAPIGetError r)]
        ret := r
        out := () }
    else
      { state := s1
        globals := { g with retVal := r }
        stderr := [StderrLine.supposedSet value1]
        ret := r
        out := () }

/-- The wrapper `int ziTogglePID1(ZIConnection conn, ZIIntegerData value)`. -/
def ziTogglePID1 {σ : Type} (api : ZIAPI σ) (s : σ) (g : Globals) (conn : ZIConnection)
    (value : ZIIntegerData) : WrapperRun σ Unit :=
  match api.ziAPISyncSetValueI s conn "/dev574/pids/0/enable" value with
  | (r, _, s1) =>
    if r ≠ ZI_INFO_SUCCESS then
      { state := s1
        globals := { g with retVal := r, errBuffer := some (api.ziAPIGetError r) }
        stderr := [StderrLine.cantToggle (api.ziAPIGetError r)]
        ret := r
        out := () }
    else
      { state := s1
        globals := { g with retVal := r }
        stderr := [StderrLine.supposedToggle]
        ret := r
        out := () }

/-- The wrapper `void ziDisconnect(ZIConnection conn)`: the result is dropped. -/
def ziDisconnect {σ : Type} (api : ZIAPI σ) (s : σ) (conn : ZIConnection) : σ :=
  (api.ziAPIDisconnect s conn).2

/-- The wrapper `void ziDestroy(ZIConnection conn)`: the result is dropped. -/
def ziDestroy {σ : Type} (api : ZIAPI σ) (s : σ) (conn : ZIConnection) : σ :=
  (api.ziAPIDestroy s conn).2

/-- The wrapper `int ziGetPID1(ZIConnection conn, ZIDoubleData* value)`; `value0` is the
content of `*value` at the call, `out` its content at the return. -/
def ziGetPID1 {σ : Type} (api : ZIAPI σ) (s : σ) (g : Globals) (conn : ZIConnection)
    (value0 : ZIDoubleData) : WrapperRun σ ZIDoubleData :=
  match api.ziAPIGetValueD s conn "/dev574/pids/0/setpoint" with
  | (r, written, s1) =>
    if r ≠ ZI_INFO_SUCCESS then
      { state := s1
        globals := { g with retVal := r, errBuffer := some (api.ziAPIGetError r) }
        stderr := [StderrLine.cantGet (api.ziAPIGetError r)]
        ret := r
        out := written.getD value0 }
    else
      { state := s1
        globals := { g with retVal := r }
        stderr := [StderrLine.valueIs (written.getD value0)]
        ret := r
        out := written.getD value0 }

/-! ## Vocabulary of the statements -/

/-- The result code of a call that `ziCreateAPISession` checks with `isError` or
`checkError`; `none` for the reporting calls (`ziAPIGetError`, `ziAPIGetLastError`,
`ziAPIWriteDebugLog`, `fprintf`), whose outcome it ignores. -/
def Call.checkedResult : Call → Option ZIResult_enum
  | Call.ziAPIDiscoveryFind _ _ r _ => some r
  | Call.ziAPIDiscoveryGetValueI _ _ _ r _ => some r
  | Call.ziAPIDiscoveryGetValueS _ _ _ r _ => some r
  | Call.ziAPIConnectEx _ _ _ _ _ r => some r
  | Call.ziAPIConnectDevice _ _ _ _ r => some r
  | Call.ziAPIDisconnect _ r => some r
  | _ => none

/-- The call is a checked library call that returned something else than
`ZI_INFO_SUCCESS`. -/
def Call.failed (c : Call) : Bool :=
  match c.checkedResult with
  | some r => isError r
  | none => false

/-- Reading a trace from its start: once a checked call has failed, only reporting calls
follow. -/
def onlyReportsAfterFailure : List Call → Bool
  | [] => true
  | c :: rest =>
    if c.failed then rest.all (fun d => d.checkedResult.isNone)
    else onlyReportsAfterFailure rest

/-- The call is a `ziAPIConnectDevice`. -/
def Call.isConnectDevice : Call → Bool
  | Call.ziAPIConnectDevice _ _ _ _ _ => true
  | _ => false

/-- The call is a `ziAPIConnectEx`. -/
def Call.isConnectEx : Call → Bool
  | Call.ziAPIConnectEx _ _ _ _ _ _ => true
  | _ => false

/-- In the words of the spec: "the first non-empty newline-delimited entry" of a
property value. The value is cut at every newline and the first piece that is not empty
is taken; `none` when every piece is empty. -/
def firstNonEmptyEntry (value : String) : Option String :=
  ((value.toList.splitOn (Char.ofNat 10)).find? (fun e => !e.isEmpty)).map String.mk

/-! ## Concrete libraries, used to run the code on explicit inputs -/

/-- A library whose every call returns the result code `r`, changes nothing, and stores
default values (a synchronous set echoes the requested value). -/
def constAPI (σ : Type) (r : ZIResult_enum) : ZIAPI σ where
  ziAPIInit s := (r, 1, s)
  ziAPIConnect s _ _ _ := (r, s)
  ziAPIDisconnect s _ := (r, s)
  ziAPIDestroy s _ := (r, s)
  ziAPIConnectEx s _ _ _ _ _ := (r, s)
  ziAPIConnectDevice s _ _ _ _ := (r, s)
  ziAPIGetVersion s := (r, "", s)
  ziAPIGetRevision s := (r, 0, s)
  ziAPIGetValueD s _ _ := (r, none, s)
  ziAPIGetValueI s _ _ := (r, 0, s)
  ziAPIGetValueString s _ _ _ := (r, "", s)
  ziAPISetValueD s _ _ _ := (r, s)
  ziAPISyncSetValueD s _ _ v := (r, v, s)
  ziAPISyncSetValueI s _ _ v := (r, v, s)
  ziAPIGetError code := if code = ZI_INFO_SUCCESS then "Success" else "Error"
  ziAPIGetLastError s _ _ := (ZI_INFO_SUCCESS, some "", s)
  ziAPIDiscoveryFind s _ _ := (r, "", s)
  ziAPIDiscoveryGetValueI s _ _ _ := (r, 0, s)
  ziAPIDiscoveryGetValueS s _ _ _ := (r, "", s)

/-- The answers of a scripted Discovery and Data Server. -/
structure Script where
  find : ZIResult_enum × String
  discoverable : ZIResult_enum × ZIIntegerData
  serveraddress : ZIResult_enum × String
  serverport : ZIResult_enum × ZIIntegerData
  apilevel : ZIResult_enum × ZIIntegerData
  connected : ZIResult_enum × String
  interfaces : ZIResult_enum × String
  connectEx : ZIResult_enum
  connectDevice : ZIResult_enum

/-- The stateless library that answers as the script says. -/
def scriptedAPI (sc : Script) : ZIAPI Unit :=
  { constAPI Unit ZI_INFO_SUCCESS with
    ziAPIDiscoveryFind := fun s _ _ => (sc.find.1, sc.find.2, s)
    ziAPIDiscoveryGetValueI := fun s _ _ propName =>
      if propName = "discoverable" then (sc.discoverable.1, sc.discoverable.2, s)
      else if propName = "serverport" then (sc.serverport.1, sc.serverport.2, s)
      else if propName = "apilevel" then (sc.apilevel.1, sc.apilevel.2, s)
      else (ZI_WARNING_NOTFOUND, 0, s)
    ziAPIDiscoveryGetValueS := fun s _ _ propName =>
      if propName = "serveraddress" then (sc.serveraddress.1, sc.serveraddress.2, s)
      else if propName = "connected" then (sc.connected.1, sc.connected.2, s)
      else if propName = "interfaces" then (sc.interfaces.1, sc.interfaces.2, s)
      else (ZI_WARNING_NOTFOUND, "", s)
    ziAPIConnectEx := fun s _ _ _ _ _ => (sc.connectEx, s)
    ziAPIConnectDevice := fun s _ _ _ _ => (sc.connectDevice, s) }

/-- The script of the spec's scenario: device `dev1234`, reachable through the Data Server
at `127.0.0.1:8004`, API level 4, already connected on `1GbE`. -/
def scenarioScript : Script where
  find := (ZI_INFO_SUCCESS, "DEV1234")
  discoverable := (ZI_INFO_SUCCESS, 1)
  serveraddress := (ZI_INFO_SUCCESS, "127.0.0.1")
  serverport := (ZI_INFO_SUCCESS, 8004)
  apilevel := (ZI_INFO_SUCCESS, 4)
  connected := (ZI_INFO_SUCCESS, "1GbE")
  interfaces := (ZI_INFO_SUCCESS, "1GbE\nUSB")
  connectEx := ZI_INFO_SUCCESS
  connectDevice := ZI_INFO_SUCCESS

/-- The scenario with a device that is not connected yet. -/
def unconnectedScript : Script :=
  { scenarioScript with connected := (ZI_INFO_SUCCESS, "") }

/-- Modelled from the spec: "the Data Server as a store from node path to value". The
server side of `ziAPISyncSetValueD`, `ziAPISetValueD` and `ziAPIGetValueD` is not in the
sources; here a set stores the effective value `effective path v` (what the hardware
makes of the request `v`) under the path, a synchronous set also writes it back, and a
get reads the path. -/
def storeAPI (effective : String → ZIDoubleData → ZIDoubleData) :
    ZIAPI (String → ZIDoubleData) :=
  { constAPI (String → ZIDoubleData) ZI_INFO_SUCCESS with
    ziAPISetValueD := fun st _ path v =>
      (ZI_INFO_SUCCESS, Function.update st path (effective path v))
    ziAPISyncSetValueD := fun st _ path v =>
      (ZI_INFO_SUCCESS, effective path v, Function.update st path (effective path v))
    ziAPIGetValueD := fun st _ path => (ZI_INFO_SUCCESS, some (st path), st) }

/-- A library whose synchronous set always writes back `limit` as the effective value. -/
def clampAPI (limit : ZIDoubleData) : ZIAPI Unit :=
  { constAPI Unit ZI_INFO_SUCCESS with
    ziAPISyncSetValueD := fun s _ _ _ => (ZI_INFO_SUCCESS, limit, s)
    ziAPISyncSetValueI := fun s _ _ _ => (ZI_INFO_SUCCESS, 0, s) }

/-- A library on which `ziAPIConnect` succeeds for every connection but connection 2. -/
def secondFailsAPI : ZIAPI Unit :=
  { constAPI Unit ZI_INFO_SUCCESS with
    ziAPIConnect := fun s conn _ _ =>
      (if conn = 2 then ZI_ERROR_SOCKET_CONNECT else ZI_INFO_SUCCESS, s) }

/-- The file-scope variables as the loader leaves them: zero-initialised. -/
def initialGlobals : Globals where
  retVal := 0
  retVal2 := 0
  conn := 0
  errBuffer := none


/-! ## `ziAPI.h`: the deprecated inline wrappers -/

/-- Implicit conversion of an `int` argument to a `uint32_t` parameter: reduction modulo
`2^32`. -/
def toUInt32 (x : Int) : Int := x % 4294967296

/-- The inline function `ziAPIPollData(conn, ev, timeOut)`: it returns
`ziAPIPollDataEx(conn, (ZIEvent*)ev, timeOut)`, where the `int timeOut` is converted to
the `uint32_t timeOutMilliseconds`. `ev` is the address of the event buffer, which the
cast leaves as it is; the function forwarded to is a parameter. -/
def ziAPIPollData {σ ρ : Type} (ziAPIPollDataEx : σ → ZIConnection → Nat → Int → ρ) (s : σ)
    (conn : ZIConnection) (ev : Nat) (timeOut : Int) : ρ :=
  ziAPIPollDataEx s conn ev (toUInt32 timeOut)

/-- The inline function `ziAPIGetValueS(conn, path, value)`: it returns
`ziAPIGetDemodSample(conn, path, (ZIDemodSample*)value)`. -/
def ziAPIGetValueS {σ ρ : Type} (ziAPIGetDemodSample : σ → ZIConnection → String → Nat → ρ)
    (s : σ) (conn : ZIConnection) (path : String) (value : Nat) : ρ :=
  ziAPIGetDemodSample s conn path value

/-- The inline function `ziAPIGetValueAuxIn(conn, path, value)`: it returns
`ziAPIGetAuxInSample(conn, path, (ZIAuxInSample*)value)`. -/
def ziAPIGetValueAuxIn {σ ρ : Type}
    (ziAPIGetAuxInSample : σ → ZIConnection → String → Nat → ρ)
    (s : σ) (conn : ZIConnection) (path : String) (value : Nat) : ρ :=
  ziAPIGetAuxInSample s conn path value

/-- The inline function `ziAPIGetValueDIO(conn, path, value)`: it returns
`ziAPIGetDIOSample(conn, path, (ZIDIOSample*)value)`. -/
def ziAPIGetValueDIO {σ ρ : Type} (ziAPIGetDIOSample : σ → ZIConnection → String → Nat → ρ)
    (s : σ) (conn : ZIConnection) (path : String) (value : Nat) : ρ :=
  ziAPIGetDIOSample s conn path value

/-- The wait-forever value of `timeOutMilliseconds`: what the documented `-1` is as a
`uint32_t`. -/
def waitForever : Int := 4294967295

/-! ## `ziAPI.h`: declarations as data -/

/-- A function declaration of the header: its name and its parameters, each a type and a
name as written. -/
structure Decl where
  name : String
  params : List (String × String)
  deriving DecidableEq, Repr

/-- The declarations of the group "API for fast asynchronous operation" (source lines 2906
to 2913). -/
def asyncDecls : List Decl :=
  [ { name := "ziAPIAsyncSetDoubleData",
      params := [("ZIConnection", "conn"), ("const char*", "path"),
        ("ZIDoubleData", "value")] },
    { name := "ziAPIAsyncSetIntegerData",
      params := [("ZIConnection", "conn"), ("const char*", "path"),
        ("ZIIntegerData", "value")] },
    { name := "ziAPIAsyncSetByteArray",
      params := [("ZIConnection", "conn"), ("const char*", "path"), ("uint8_t*", "buffer"),
        ("uint32_t", "length")] },
    { name := "ziAPIAsyncSetString",
      params := [("ZIConnection", "conn"), ("const char*", "path"), ("const char*", "str")] },
    { name := "ziAPIAsyncSetStringUnicode",
      params := [("ZIConnection", "conn"), ("const char*", "path"),
        ("const wchar_t*", "wstr")] },
    { name := "ziAPIAsyncSubscribe",
      params := [("ZIConnection", "conn"), ("const char*", "path"), ("ZIAsyncTag", "tag")] },
    { name := "ziAPIAsyncUnSubscribe",
      params := [("ZIConnection", "conn"), ("const char*", "path"), ("ZIAsyncTag", "tag")] },
    { name := "ziAPIAsyncGetValueAsPollData",
      params := [("ZIConnection", "conn"), ("const char*", "path"), ("ZIAsyncTag", "tag")] } ]

/-- The commands that the documentation of `ZIAsyncReply.command` enumerates, with their
codes. -/
def asyncReplyCommands : List (Nat × String) :=
  [(1, "ziAPIAsyncSetDoubleData"), (2, "ziAPIAsyncSetIntegerData"),
   (3, "ziAPIAsyncSetByteArray"), (4, "ziAPIAsyncSubscribe"),
   (5, "ziAPIAsyncUnSubscribe"), (6, "ziAPIAsyncGetValueAsPollData")]

/-- The declaration has a parameter of type `ZIAsyncTag`. -/
def Decl.takesTag (d : Decl) : Bool := d.params.any (fun p => p.1 = "ZIAsyncTag")

/-- The asynchronous command of that name is declared with a `ZIAsyncTag` parameter. -/
def commandTakesTag (name : String) : Bool :=
  asyncDecls.any (fun d => d.name = name && d.takesTag)

/-- The named enumerators of `ZIResult_enum` other than the region bounds, each with the
region its prefix names. -/
def resultCodes : List (String × ZIResult_enum × Region) :=
  [("ZI_INFO_SUCCESS", ZI_INFO_SUCCESS, Region.info),
   ("ZI_WARNING_GENERAL", ZI_WARNING_GENERAL, Region.warning),
   ("ZI_WARNING_UNDERRUN", ZI_WARNING_UNDERRUN, Region.warning),
   ("ZI_WARNING_OVERFLOW", ZI_WARNING_OVERFLOW, Region.warning),
   ("ZI_WARNING_NOTFOUND", ZI_WARNING_NOTFOUND, Region.warning),
   ("ZI_WARNING_NO_ASYNC", ZI_WARNING_NO_ASYNC, Region.warning),
   ("ZI_ERROR_GENERAL", ZI_ERROR_GENERAL, Region.error),
   ("ZI_ERROR_USB", ZI_ERROR_USB, Region.error),
   ("ZI_ERROR_MALLOC", ZI_ERROR_MALLOC, Region.error),
   ("ZI_ERROR_MUTEX_INIT", ZI_ERROR_MUTEX_INIT, Region.error),
   ("ZI_ERROR_MUTEX_DESTROY", ZI_ERROR_MUTEX_DESTROY, Region.error),
   ("ZI_ERROR_MUTEX_LOCK", ZI_ERROR_MUTEX_LOCK, Region.error),
   ("ZI_ERROR_MUTEX_UNLOCK", ZI_ERROR_MUTEX_UNLOCK, Region.error),
   ("ZI_ERROR_THREAD_START", ZI_ERROR_THREAD_START, Region.error),
   ("ZI_ERROR_THREAD_JOIN", ZI_ERROR_THREAD_JOIN, Region.error),
   ("ZI_ERROR_SOCKET_INIT", ZI_ERROR_SOCKET_INIT, Region.error),
   ("ZI_ERROR_SOCKET_CONNECT", ZI_ERROR_SOCKET_CONNECT, Region.error),
   ("ZI_ERROR_HOSTNAME", ZI_ERROR_HOSTNAME, Region.error),
   ("ZI_ERROR_CONNECTION", ZI_ERROR_CONNECTION, Region.error),
   ("ZI_ERROR_TIMEOUT", ZI_ERROR_TIMEOUT, Region.error),
   ("ZI_ERROR_COMMAND", ZI_ERROR_COMMAND, Region.error),
   ("ZI_ERROR_SERVER_INTERNAL", ZI_ERROR_SERVER_INTERNAL, Region.error),
   ("ZI_ERROR_LENGTH", ZI_ERROR_LENGTH, Region.error),
   ("ZI_ERROR_FILE", ZI_ERROR_FILE, Region.error),
   ("ZI_ERROR_DUPLICATE", ZI_ERROR_DUPLICATE, Region.error),
   ("ZI_ERROR_READONLY", ZI_ERROR_READONLY, Region.error),
   ("ZI_ERROR_DEVICE_NOT_VISIBLE", ZI_ERROR_DEVICE_NOT_VISIBLE, Region.error),
   ("ZI_ERROR_DEVICE_IN_USE", ZI_ERROR_DEVICE_IN_USE, Region.error),
   ("ZI_ERROR_DEVICE_INTERFACE", ZI_ERROR_DEVICE_INTERFACE, Region.error),
   ("ZI_ERROR_DEVICE_CONNECTION_TIMEOUT", ZI_ERROR_DEVICE_CONNECTION_TIMEOUT, Region.error),
   ("ZI_ERROR_DEVICE_DIFFERENT_INTERFACE", ZI_ERROR_DEVICE_DIFFERENT_INTERFACE,
     Region.error),
   ("ZI_ERROR_DEVICE_NEEDS_FW_UPGRADE", ZI_ERROR_DEVICE_NEEDS_FW_UPGRADE, Region.error),
   ("ZI_ERROR_ZIEVENT_DATATYPE_MISMATCH", ZI_ERROR_ZIEVENT_DATATYPE_MISMATCH, Region.error),
   ("ZI_ERROR_DEVICE_NOT_FOUND", ZI_ERROR_DEVICE_NOT_FOUND, Region.error),
   ("ZI_ERROR_NOT_SUPPORTED", ZI_ERROR_NOT_SUPPORTED, Region.error),
   ("ZI_ERROR_TOO_MANY_CONNECTIONS", ZI_ERROR_TOO_MANY_CONNECTIONS, Region.error),
   ("ZI_ERROR_NOT_ON_HF2", ZI_ERROR_NOT_ON_HF2, Region.error)]

/-- The stem that the names of the codes of a region start with. -/
def regionStem : Region → String
  | Region.info => "ZI_INFO_"
  | Region.warning => "ZI_WARNING_"
  | Region.error => "ZI_ERROR_"

/-- The code lies in the half-open region `[BASE, MAX)` of that name. -/
def inRegion (reg : Region) (r : Int) : Bool :=
  match reg with
  | Region.info => decide (ZI_INFO_BASE ≤ r) && decide (r < ZI_INFO_MAX)
  | Region.warning => decide (ZI_WARNING_BASE ≤ r) && decide (r < ZI_WARNING_MAX)
  | Region.error => decide (ZI_ERROR_BASE ≤ r) && decide (r < ZI_ERROR_MAX)

/-- The current enumerators of `ZIValueType_enum` (those outside the deprecated block),
with their values. -/
def valueTypes : List (String × Nat) :=
  [("ZI_VALUE_TYPE_NONE", 0), ("ZI_VALUE_TYPE_DOUBLE_DATA", 1),
   ("ZI_VALUE_TYPE_INTEGER_DATA", 2), ("ZI_VALUE_TYPE_DEMOD_SAMPLE", 3),
   ("ZI_VALUE_TYPE_SCOPE_WAVE_OLD", 4), ("ZI_VALUE_TYPE_AUXIN_SAMPLE", 5),
   ("ZI_VALUE_TYPE_DIO_SAMPLE", 6), ("ZI_VALUE_TYPE_BYTE_ARRAY", 7),
   ("ZI_VALUE_TYPE_PWA_WAVE", 8), ("ZI_VALUE_TYPE_TREE_CHANGE_DATA_OLD", 16),
   ("ZI_VALUE_TYPE_DOUBLE_DATA_TS", 32), ("ZI_VALUE_TYPE_INTEGER_DATA_TS", 33),
   ("ZI_VALUE_TYPE_COMPLEX_DATA", 34), ("ZI_VALUE_TYPE_SCOPE_WAVE", 35),
   ("ZI_VALUE_TYPE_SCOPE_WAVE_EX", 36), ("ZI_VALUE_TYPE_BYTE_ARRAY_TS", 38),
   ("ZI_VALUE_TYPE_CNT_SAMPLE", 46), ("ZI_VALUE_TYPE_TRIG_SAMPLE", 47),
   ("ZI_VALUE_TYPE_TREE_CHANGE_DATA", 48), ("ZI_VALUE_TYPE_ASYNC_REPLY", 50),
   ("ZI_VALUE_TYPE_SWEEPER_WAVE", 64), ("ZI_VALUE_TYPE_SPECTRUM_WAVE", 65),
   ("ZI_VALUE_TYPE_ADVISOR_WAVE", 66), ("ZI_VALUE_TYPE_VECTOR_DATA", 67),
   ("ZI_VALUE_TYPE_IMPEDANCE_SAMPLE", 68)]

/-- The typed members of the union `ZIEvent.value` (all but `untyped` and `alignment`), in
source order, each with the value type its comment "when valueType == ..." names. -/
def eventValueMembers : List (String × String) :=
  [("doubleData", "ZI_VALUE_TYPE_DOUBLE_DATA"),
   ("doubleDataTS", "ZI_VALUE_TYPE_DOUBLE_DATA_TS"),
   ("integerData", "ZI_VALUE_TYPE_INTEGER_DATA"),
   ("integerDataTS", "ZI_VALUE_TYPE_INTEGER_DATA_TS"),
   ("complexData", "ZI_VALUE_TYPE_COMPLEX_DATA"),
   ("byteArray", "ZI_VALUE_TYPE_BYTE_ARRAY"),
   ("byteArrayTS", "ZI_VALUE_TYPE_BYTE_ARRAY_TS"),
   ("cntSample", "ZI_VALUE_TYPE_CNT_SAMPLE"),
   ("trigSample", "ZI_VALUE_TYPE_TRIG_SAMPLE"),
   ("treeChangeData", "ZI_VALUE_TYPE_TREE_CHANGE_DATA"),
   ("treeChangeDataOld", "ZI_VALUE_TYPE_TREE_CHANGE_DATA_OLD"),
   ("demodSample", "ZI_VALUE_TYPE_DEMOD_SAMPLE"),
   ("auxInSample", "ZI_VALUE_TYPE_AUXIN_SAMPLE"),
   ("dioSample", "ZI_VALUE_TYPE_DIO_SAMPLE"),
   ("scopeWave", "ZI_VALUE_TYPE_SCOPE_WAVE"),
   ("scopeWaveEx", "ZI_VALUE_TYPE_SCOPE_WAVE_EX"),
   ("scopeWaveOld", "ZI_VALUE_TYPE_SCOPE_WAVE_OLD"),
   ("pwaWave", "ZI_VALUE_TYPE_PWA_WAVE"),
   ("sweeperWave", "ZI_VALUE_TYPE_SWEEPER_WAVE"),
   ("spectrumWave", "ZI_VALUE_TYPE_SPECTRUM_WAVE"),
   ("advisorWave", "ZI_VALUE_TYPE_ADVISOR_WAVE"),
   ("asyncReply", "ZI_VALUE_TYPE_ASYNC_REPLY"),
   ("vectorData", "ZI_VALUE_TYPE_VECTOR_DATA"),
   ("impedanceSample", "ZI_VALUE_TYPE_IMPEDANCE_SAMPLE")]

/-- The members of `ZIEvent.value` documented for a value type. -/
def membersFor (valueType : String) : List String :=
  (eventValueMembers.filter (fun m => m.2 = valueType)).map (fun m => m.1)

/-- The value types a member of `ZIEvent.value` is documented for. -/
def typesFor (member : String) : List String :=
  (eventValueMembers.filter (fun m => m.1 = member)).map (fun m => m.2)

/-! ## `ziAPI.h`: the flags of `ziAPIListNodes` -/

def ZI_LIST_NODES_NONE : Nat := 0x00
def ZI_LIST_NODES_RECURSIVE : Nat := 0x01
def ZI_LIST_NODES_ABSOLUTE : Nat := 0x02
def ZI_LIST_NODES_LEAFSONLY : Nat := 0x04
def ZI_LIST_NODES_SETTINGSONLY : Nat := 0x08
def ZI_LIST_NODES_STREAMINGONLY : Nat := 0x10
def ZI_LIST_NODES_SUBSCRIBEDONLY : Nat := 0x20
def ZI_LIST_NODES_BASECHANNEL : Nat := 0x40
def ZI_LIST_NODES_GETONLY : Nat := 0x80

/-- The eight non-zero enumerators of `ZIListNodes_enum`. -/
inductive ListNodesFlag where
  | recursive
  | absolute
  | leafsOnly
  | settingsOnly
  | streamingOnly
  | subscribedOnly
  | baseChannel
  | getOnly
  deriving DecidableEq, Repr

/-- The value of a flag. -/
def ListNodesFlag.value : ListNodesFlag → Nat
  | ListNodesFlag.recursive => ZI_LIST_NODES_RECURSIVE
  | ListNodesFlag.absolute => ZI_LIST_NODES_ABSOLUTE
  | ListNodesFlag.leafsOnly => ZI_LIST_NODES_LEAFSONLY
  | ListNodesFlag.settingsOnly => ZI_LIST_NODES_SETTINGSONLY
  | ListNodesFlag.streamingOnly => ZI_LIST_NODES_STREAMINGONLY
  | ListNodesFlag.subscribedOnly => ZI_LIST_NODES_SUBSCRIBEDONLY
  | ListNodesFlag.baseChannel => ZI_LIST_NODES_BASECHANNEL
  | ListNodesFlag.getOnly => ZI_LIST_NODES_GETONLY

/-- All eight flags, in source order. -/
def allListNodesFlags : List ListNodesFlag :=
  [ListNodesFlag.recursive, ListNodesFlag.absolute, ListNodesFlag.leafsOnly,
   ListNodesFlag.settingsOnly, ListNodesFlag.streamingOnly, ListNodesFlag.subscribedOnly,
   ListNodesFlag.baseChannel, ListNodesFlag.getOnly]

/-- A set of flags: for each of the eight flags, whether it is selected. -/
structure FlagSet where
  recursive : Bool
  absolute : Bool
  leafsOnly : Bool
  settingsOnly : Bool
  streamingOnly : Bool
  subscribedOnly : Bool
  baseChannel : Bool
  getOnly : Bool
  deriving DecidableEq, Repr

/-- Membership of a flag in a set of flags. -/
def FlagSet.contains (fs : FlagSet) : ListNodesFlag → Bool
  | ListNodesFlag.recursive => fs.recursive
  | ListNodesFlag.absolute => fs.absolute
  | ListNodesFlag.leafsOnly => fs.leafsOnly
  | ListNodesFlag.settingsOnly => fs.settingsOnly
  | ListNodesFlag.streamingOnly => fs.streamingOnly
  | ListNodesFlag.subscribedOnly => fs.subscribedOnly
  | ListNodesFlag.baseChannel => fs.baseChannel
  | ListNodesFlag.getOnly => fs.getOnly

/-- The `flags` argument of `ziAPIListNodes` for a set of flags: the bitwise OR of the
selected ones, starting from `ZI_LIST_NODES_NONE`. -/
def FlagSet.combine (fs : FlagSet) : Nat :=
  allListNodesFlags.foldl
    (fun acc f => if fs.contains f then acc ||| f.value else acc) ZI_LIST_NODES_NONE

/-- The number is a single bit. -/
def isSingleBit (n : Nat) : Bool := n != 0 && (n &&& (n - 1)) == 0

/-! ## `ziAPI.h`: chunk header flags -/

def ZI_CHUNK_HEADER_MODULE_FLAGS_WINDOW : Nat := 0x00000003

/-- The FFT window codes that the comment on `ZI_CHUNK_HEADER_MODULE_FLAGS_WINDOW`
documents. -/
def fftWindowCodes : List (Nat × String) :=
  [(0, "Rectangular"), (1, "Hann"), (2, "Hamming"), (3, "Blackmanharris"),
   (4, "Exponential"), (5, "Cosine"), (6, "CosineSquare")]

/-! ## `ziAPI.h`: structure layouts -/

def MAX_PATH_LEN : Nat := 256
def MAX_EVENT_SIZE : Nat := 0x400000
def MAX_NAME_LEN : Nat := 32

/-- A member of a `struct` declaration. -/
structure Field where
  /-- The member's name. -/
  name : String
  /-- The element type, as written. -/
  type : String
  /-- The size in bytes of one element. -/
  elemSize : Nat
  /-- The alignment in bytes. -/
  align : Nat
  /-- The number of elements: the array length, 1 for a member that is not an array. -/
  count : Nat
  /-- The member directly follows a `// --- 8 bytes border` comment. -/
  border : Bool
  deriving DecidableEq, Repr

/-- The size in bytes of a member. -/
def Field.size (f : Field) : Nat := f.elemSize * f.count

/-- The least multiple of `a` that is at least `n`. -/
def alignUp (n a : Nat) : Nat := (n + a - 1) / a * a

/-- The size of a scalar type, which under natural alignment is its alignment too.
`unsigned int` is taken to be 32 bits wide; pointers are 8 bytes wide. -/
def scalarSize (type : String) : Nat :=
  if type = "uint8_t" ∨ type = "int8_t" ∨ type = "char" ∨ type = "unsigned char" then 1
  else if type = "uint16_t" ∨ type = "int16_t" then 2
  else if type = "uint32_t" ∨ type = "int32_t" ∨ type = "float" ∨ type = "unsigned int"
    ∨ type = "ZIAsyncTag" then 4
  else 8

/-- A scalar member. -/
def Field.scalar (type name : String) : Field :=
  { name := name, type := type, elemSize := scalarSize type, align := scalarSize type,
    count := 1, border := false }

/-- An array member `type name[count]`. -/
def Field.array (type name : String) (count : Nat) : Field :=
  { name := name, type := type, elemSize := scalarSize type, align := scalarSize type,
    count := count, border := false }

/-- A member that is an anonymous union of the given members: as large as its largest
member, rounded up to its alignment, and aligned as its most aligned member. -/
def Field.union (name : String) (members : List Field) : Field :=
  { name := name
    type := "union"
    elemSize := alignUp ((members.map Field.size).foldl max 0)
      ((members.map Field.align).foldl max 1)
    align := (members.map Field.align).foldl max 1
    count := 1
    border := false }

/-- The same member, marked as directly following a `// --- 8 bytes border` comment. -/
def Field.afterBorder (f : Field) : Field := { f with border := true }

/-- The byte offsets of the members of a `struct` laid out in declaration order with
natural alignment, starting at offset `start`. -/
def offsetsFrom (start : Nat) : List Field → List Nat
  | [] => []
  | f :: rest => alignUp start f.align :: offsetsFrom (alignUp start f.align + f.size) rest

/-- The byte offsets of the members of a `struct`. -/
def offsets (fields : List Field) : List Nat := offsetsFrom 0 fields

/-- The members with their offsets. -/
def layout (fields : List Field) : List (Field × Nat) := fields.zip (offsets fields)

/-- The size of a `struct`: the end of its last member, rounded up to the alignment of
the structure. -/
def structSize (fields : List Field) : Nat :=
  alignUp (((layout fields).map (fun p => p.2 + p.1.size)).foldl max 0)
    ((fields.map Field.align).foldl max 1)

/-- The offset of the member of that name. -/
def offsetOf (fields : List Field) (name : String) : Option Nat :=
  ((layout fields).find? (fun p => p.1.name = name)).map (fun p => p.2)

/-- Every member that directly follows a border comment starts at a multiple of 8. -/
def bordersAligned (fields : List Field) : Bool :=
  (layout fields).all (fun p => !p.1.border || p.2 % 8 == 0)

/-- The offsets the members would have without any padding, starting at `start`. -/
def packedOffsetsFrom (start : Nat) : List Field → List Nat
  | [] => []
  | f :: rest => start :: packedOffsetsFrom (start + f.size) rest

/-- No padding is inserted: each member starts where the one before it ends. -/
def noPadding (fields : List Field) : Bool :=
  offsets fields == packedOffsetsFrom 0 fields

/-- A pointer member, for a pointer width of `ptr` bytes. -/
def Field.pointer (ptr : Nat) (name : String) : Field :=
  { name := name, type := "pointer", elemSize := ptr, align := ptr, count := 1,
    border := false }

/-- The union `data` that ends `ZIScopeWave` and `ZIScopeWaveEx`. -/
def scopeWaveData : Field :=
  Field.union "data"
    [Field.array "int16_t" "dataInt16" 0, Field.array "int32_t" "dataInt32" 0,
     Field.array "float" "dataFloat" 0]

/-- The members of `struct ZIScopeWave` from `timeStamp` through `sampleCount`. -/
def ZIScopeWave_header : List Field :=
  [(Field.scalar "ZITimeStamp" "timeStamp").afterBorder,
   (Field.scalar "ZITimeStamp" "triggerTimeStamp").afterBorder,
   (Field.scalar "double" "dt").afterBorder,
   (Field.array "uint8_t" "channelEnable" 4).afterBorder,
   Field.array "uint8_t" "channelInput" 4,
   (Field.scalar "uint8_t" "triggerEnable").afterBorder,
   Field.scalar "uint8_t" "triggerInput",
   Field.array "uint8_t" "reserved0" 2,
   Field.array "uint8_t" "channelBWLimit" 4,
   (Field.array "uint8_t" "channelMath" 4).afterBorder,
   Field.array "float" "channelScaling" 4,
   Field.scalar "uint32_t" "sequenceNumber",
   (Field.scalar "uint32_t" "segmentNumber").afterBorder,
   Field.scalar "uint32_t" "blockNumber",
   (Field.scalar "uint64_t" "totalSamples").afterBorder,
   (Field.scalar "uint8_t" "dataTransferMode").afterBorder,
   Field.scalar "uint8_t" "blockMarker",
   Field.scalar "uint8_t" "flags",
   Field.scalar "uint8_t" "sampleFormat",
   Field.scalar "uint32_t" "sampleCount"]

/-- The members of `struct ZIScopeWave`. -/
def ZIScopeWave_fields : List Field :=
  ZIScopeWave_header ++ [scopeWaveData.afterBorder]

/-- The members of `struct ZIScopeWaveEx`, as declared (source lines 894 to 1059). -/
def ZIScopeWaveEx_fields : List Field :=
  [(Field.scalar "ZITimeStamp" "timeStamp").afterBorder,
   (Field.scalar "ZITimeStamp" "triggerTimeStamp").afterBorder,
   (Field.scalar "double" "dt").afterBorder,
   (Field.array "uint8_t" "channelEnable" 4).afterBorder,
   Field.array "uint8_t" "channelInput" 4,
   (Field.scalar "uint8_t" "triggerEnable").afterBorder,
   Field.scalar "uint8_t" "triggerInput",
   Field.array "uint8_t" "reserved0" 2,
   Field.array "uint8_t" "channelBWLimit" 4,
   (Field.array "uint8_t" "channelMath" 4).afterBorder,
   Field.array "float" "channelScaling" 4,
   Field.scalar "uint32_t" "sequenceNumber",
   (Field.scalar "uint32_t" "segmentNumber").afterBorder,
   Field.scalar "uint32_t" "blockNumber",
   (Field.scalar "uint64_t" "totalSamples").afterBorder,
   (Field.scalar "uint8_t" "dataTransferMode").afterBorder,
   Field.scalar "uint8_t" "blockMarker",
   Field.scalar "uint8_t" "flags",
   Field.scalar "uint8_t" "sampleFormat",
   Field.scalar "uint32_t" "sampleCount",
   (Field.array "double" "channelOffset" 4).afterBorder,
   (Field.scalar "uint32_t" "totalSegments").afterBorder,
   Field.scalar "uint32_t" "reserved1",
   (Field.array "uint64_t" "reserved2" 31).afterBorder,
   scopeWaveData.afterBorder]

/-- The members of `struct ZIVectorData`. -/
def ZIVectorData_fields : List Field :=
  [(Field.scalar "ZITimeStamp" "timeStamp").afterBorder,
   (Field.scalar "uint32_t" "sequenceNumber").afterBorder,
   Field.scalar "uint32_t" "blockNumber",
   (Field.scalar "uint64_t" "totalElements").afterBorder,
   (Field.scalar "uint64_t" "blockOffset").afterBorder,
   (Field.scalar "uint32_t" "blockElements").afterBorder,
   Field.scalar "uint8_t" "flags",
   Field.scalar "uint8_t" "elementType",
   Field.array "uint8_t" "reserved0" 2,
   (Field.array "uint64_t" "reserved1" 32).afterBorder,
   (Field.union "data"
     [Field.array "uint8_t" "dataUInt8" 0, Field.array "uint16_t" "dataUInt16" 0,
      Field.array "uint32_t" "dataUInt32" 0, Field.array "uint64_t" "dataUInt64" 0,
      Field.array "int8_t" "dataInt8" 0, Field.array "int16_t" "dataInt16" 0,
      Field.array "int32_t" "dataInt32" 0, Field.array "int64_t" "dataInt64" 0,
      Field.array "double" "dataDouble" 0, Field.array "float" "dataFloat" 0]).afterBorder]

/-- The members of `struct ZIAsyncReply`. -/
def ZIAsyncReply_fields : List Field :=
  [(Field.scalar "ZITimeStamp" "timeStamp").afterBorder,
   (Field.scalar "ZITimeStamp" "sampleTimeStamp").afterBorder,
   (Field.scalar "uint16_t" "command").afterBorder,
   Field.scalar "uint16_t" "resultCode",
   Field.scalar "ZIAsyncTag" "tag"]

/-- The members of `struct ZIEvent`, for a pointer width of `ptr` bytes. -/
def ZIEvent_fields (ptr : Nat) : List Field :=
  [(Field.scalar "uint32_t" "valueType").afterBorder,
   Field.scalar "uint32_t" "count",
   (Field.array "uint8_t" "path" MAX_PATH_LEN).afterBorder,
   (Field.union "value"
     (("untyped" :: eventValueMembers.map (fun m => m.1)).map (Field.pointer ptr) ++
       [Field.scalar "uint64_t" "alignment"])).afterBorder,
   (Field.array "uint8_t" "data" MAX_EVENT_SIZE).afterBorder]

/-- The members of the deprecated `struct ziEvent`, for a pointer width of `ptr` bytes. -/
def ziEvent_fields (ptr : Nat) : List Field :=
  [Field.scalar "uint32_t" "Type",
   Field.scalar "uint32_t" "Count",
   Field.array "unsigned char" "Path" MAX_PATH_LEN,
   Field.union "Val"
     (["Void", "SampleDemod", "SampleAuxIn", "SampleDIO", "Double", "Integer", "Tree",
       "ByteArray", "Wave"].map (Field.pointer ptr) ++
       [Field.scalar "uint64_t" "alignment"]),
   Field.array "unsigned char" "Data" MAX_EVENT_SIZE]

/-- The members of `struct ZIDemodSample`. -/
def ZIDemodSample_fields : List Field :=
  [Field.scalar "ZITimeStamp" "timeStamp", Field.scalar "double" "x",
   Field.scalar "double" "y", Field.scalar "double" "frequency",
   Field.scalar "double" "phase", Field.scalar "uint32_t" "dioBits",
   Field.scalar "uint32_t" "trigger", Field.scalar "double" "auxIn0",
   Field.scalar "double" "auxIn1"]

/-- The members of the deprecated `struct DemodSample`. -/
def DemodSample_fields : List Field :=
  [Field.scalar "ziTimeStampType" "TimeStamp", Field.scalar "double" "X",
   Field.scalar "double" "Y", Field.scalar "double" "Frequency",
   Field.scalar "double" "Phase", Field.scalar "unsigned int" "DIOBits",
   Field.scalar "unsigned int" "Reserved", Field.scalar "double" "AuxIn0",
   Field.scalar "double" "AuxIn1"]

/-- The members of `struct ZIAuxInSample`. -/
def ZIAuxInSample_fields : List Field :=
  [Field.scalar "ZITimeStamp" "timeStamp", Field.scalar "double" "ch0",
   Field.scalar "double" "ch1"]

/-- The members of the deprecated `struct AuxInSample`. -/
def AuxInSample_fields : List Field :=
  [Field.scalar "ziTimeStampType" "TimeStamp", Field.scalar "double" "Ch0",
   Field.scalar "double" "Ch1"]

/-- The members of `struct ZIDIOSample`. -/
def ZIDIOSample_fields : List Field :=
  [Field.scalar "ZITimeStamp" "timeStamp", Field.scalar "uint32_t" "bits",
   Field.scalar "uint32_t" "reserved"]

/-- The members of the deprecated `struct DIOSample`. -/
def DIOSample_fields : List Field :=
  [Field.scalar "ziTimeStampType" "TimeStamp", Field.scalar "unsigned int" "Bits",
   Field.scalar "unsigned int" "Reserved"]

/-- The members of `struct ZIChunkHeader`. -/
def ZIChunkHeader_fields : List Field :=
  [Field.scalar "ZITimeStamp" "systemTime",
   Field.scalar "ZITimeStamp" "createdTimeStamp",
   Field.scalar "ZITimeStamp" "changedTimeStamp",
   (Field.scalar "uint32_t" "flags").afterBorder,
   Field.scalar "uint32_t" "moduleFlags",
   (Field.scalar "uint32_t" "status").afterBorder,
   Field.scalar "uint32_t" "reserved0",
   (Field.scalar "uint64_t" "chunkSizeBytes").afterBorder,
   Field.scalar "uint64_t" "triggerNumber",
   (Field.array "char" "name" MAX_NAME_LEN).afterBorder,
   Field.scalar "uint32_t" "groupIndex",
   (Field.scalar "uint32_t" "color").afterBorder,
   Field.scalar "uint32_t" "activeRow",
   (Field.scalar "uint32_t" "gridRows").afterBorder,
   Field.scalar "uint32_t" "gridCols",
   (Field.scalar "uint32_t" "gridMode").afterBorder,
   Field.scalar "uint32_t" "gridOperation",
   (Field.scalar "uint32_t" "gridDirection").afterBorder,
   Field.scalar "uint32_t" "gridRepetitions",
   (Field.scalar "double" "gridColDelta").afterBorder,
   (Field.scalar "double" "gridColOffset").afterBorder,
   (Field.scalar "double" "gridRowDelta").afterBorder,
   (Field.scalar "double" "gridRowOffset").afterBorder,
   (Field.scalar "double" "bandwidth").afterBorder,
   (Field.scalar "double" "center").afterBorder,
   (Field.scalar "double" "nenbw").afterBorder]

/-- What the layout of a structure fixes for code that reads and writes its members
through a pointer: the size and offset of each member, and the total size. -/
def memoryShape (fields : List Field) : List (Nat × Nat) × Nat :=
  ((layout fields).map (fun p => (p.1.size, p.2)), structSize fields)

/-- What a layout extension keeps of a member: name, type, length and offset. -/
def memberShape (p : Field × Nat) : String × String × Nat × Nat :=
  (p.1.name, p.1.type, p.1.count, p.2)

/-! ## The event queue of a connection -/

/-- Modelled from the spec: the lifecycle of a module, "Created -(configure
params/subscribe)-> Ready -(execute)-> Executing -(finish | natural completion)->
Finished", with the terminal state `Destroyed` reached by `clear`. The module engine is
inside the vendor library; the sources hold only the declarations `ziAPIMod*`. -/
inductive ModuleState where
  | Created
  | Ready
  | Executing
  | Finished
  | Destroyed
  deriving DecidableEq, Repr

/-- Modelled from the spec: the "typed value" of a module parameter, one case for each
of `ziAPIModSetDoubleData`, `ziAPIModSetIntegerData`, `ziAPIModSetByteArray` and
`ziAPIModSetString`. -/
inductive ParameterValue where
  | double (value : ZIDoubleData)
  | integer (value : ZIIntegerData)
  | byteArray (buffer : List Nat)
  | string (str : String)
  deriving DecidableEq, Repr

/-- Modelled from the spec: a module, "kind, parameters: namespace of Node Path to typed
value, subscriptions: set of NodePath, lifecycle_state: ModuleState". -/
structure Module where
  kind : String
  parameters : List (String × ParameterValue)
  subscriptions : List String
  lifecycle_state : ModuleState
  deriving DecidableEq, Repr

/-- Modelled from the spec: the outcome kinds of a configuration call on a module, of
which the spec names success and the `InvalidState` error. -/
inductive ModuleResult where
  | Success
  | InvalidStateError
  deriving DecidableEq, Repr

/-- Modelled from the spec: `create(connection, kind)`, as `ziAPIModCreate`. -/
def Module.create (kind : String) : Module :=
  { kind := kind, parameters := [], subscriptions := [],
    lifecycle_state := ModuleState.Created }

/-- Modelled from the spec: the state after a configuration call that was accepted: a
module that was `Created` becomes `Ready`. -/
def ModuleState.configured : ModuleState → ModuleState
  | ModuleState.Created => ModuleState.Ready
  | st => st

/-- Modelled from the spec: whether configuration calls are accepted: "only valid while
not Executing", and after `clear` "the handle is invalid". -/
def ModuleState.acceptsConfiguration : ModuleState → Bool
  | ModuleState.Executing => false
  | ModuleState.Destroyed => false
  | _ => true

/-- Modelled from the spec: `set_parameter(module, path, value)`; "configuration calls
made while Executing fail with an InvalidState error rather than silently queuing". -/
def Module.set_parameter (m : Module) (path : String) (value : ParameterValue) :
    ModuleResult × Module :=
  if m.lifecycle_state.acceptsConfiguration then
    (ModuleResult.Success,
      { m with
        parameters := (path, value) :: m.parameters.filter (fun p => p.1 != path)
        lifecycle_state := m.lifecycle_state.configured })
  else (ModuleResult.InvalidStateError, m)

/-- Modelled from the spec: `subscribe(module, path)`, "valid only while not
Executing"; adding a path twice changes nothing. -/
def Module.subscribe (m : Module) (path : String) : ModuleResult × Module :=
  if m.lifecycle_state.acceptsConfiguration then
    (ModuleResult.Success,
      { m with
        subscriptions :=
          if m.subscriptions.contains path then m.subscriptions
          else m.subscriptions ++ [path]
        lifecycle_state := m.lifecycle_state.configured })
  else (ModuleResult.InvalidStateError, m)

/-- Modelled from the spec: `unsubscribe(module, path)`, "valid only while not
Executing". -/
def Module.unsubscribe (m : Module) (path : String) : ModuleResult × Module :=
  if m.lifecycle_state.acceptsConfiguration then
    (ModuleResult.Success,
      { m with
        subscriptions := m.subscriptions.filter (fun p => p != path)
        lifecycle_state := m.lifecycle_state.configured })
  else (ModuleResult.InvalidStateError, m)

/-- Modelled from the spec: `execute(module)` "starts the task"; it leads from `Ready`
to `Executing`, and "from Finished, execute may be called again to restart". -/
def Module.execute (m : Module) : ModuleResult × Module :=
  match m.lifecycle_state with
  | ModuleState.Ready =>
    (ModuleResult.Success, { m with lifecycle_state := ModuleState.Executing })
  | ModuleState.Finished =>
    (ModuleResult.Success, { m with lifecycle_state := ModuleState.Executing })
  | _ => (ModuleResult.InvalidStateError, m)

/-- Modelled from the spec: `ziAPIModSetDoubleData(conn, handle, path, value)`, the
`set_parameter` of a double. -/
def ziAPIModSetDoubleData (m : Module) (path : String) (value : ZIDoubleData) :
    ModuleResult × Module :=
  m.set_parameter path (ParameterValue.double value)

/-- Modelled from the spec: `ziAPIModSetIntegerData(conn, handle, path, value)`. -/
def ziAPIModSetIntegerData (m : Module) (path : String) (value : ZIIntegerData) :
    ModuleResult × Module :=
  m.set_parameter path (ParameterValue.integer value)

/-- Modelled from the spec: `ziAPIModSetByteArray(conn, handle, path, buffer, length)`. -/
def ziAPIModSetByteArray (m : Module) (path : String) (buffer : List Nat) :
    ModuleResult × Module :=
  m.set_parameter path (ParameterValue.byteArray buffer)

/-- Modelled from the spec: `ziAPIModSetString(conn, handle, path, str)`. -/
def ziAPIModSetString (m : Module) (path : String) (str : String) :
    ModuleResult × Module :=
  m.set_parameter path (ParameterValue.string str)

/-- Modelled from the spec: `ziAPIModSubscribe(conn, handle, path)`. -/
def ziAPIModSubscribe (m : Module) (path : String) : ModuleResult × Module :=
  m.subscribe path

/-- Modelled from the spec: `ziAPIModUnSubscribe(conn, handle, path)`. -/
def ziAPIModUnSubscribe (m : Module) (path : String) : ModuleResult × Module :=
  m.unsubscribe path

/-- A sweeper module that was configured with a device and one subscription and then
started. -/
def executingSweeper : Module :=
  ((ziAPIModSubscribe
    (ziAPIModSetByteArray (Module.create "sweep") "sweep/device" [100, 101, 118]).2
    "/dev574/demods/0/sample").2.execute).2

/-! ## `setpointPID1.c`: the wrappers statement by statement -/

/-- What the five wrappers `ziConnect`, `ziSetValueD`, `ziSyncSetValueD`, `ziTogglePID1`
and `ziGetPID1` differ in: the library call on the right of `retVal = ...` (with the line
the success branch prints, which may show a local the call has written) and the format of
the failure branch. -/
structure StatusWrapper (σ : Type) where
  call : σ → ZIResult_enum × (ZIResult_enum → StderrLine) × σ
  getError : ZIResult_enum → String
  onFailure : String → StderrLine

/-- The statements of `ziConnect`. -/
def ziConnectCode {σ : Type} (api : ZIAPI σ) (conn : ZIConnection) : StatusWrapper σ where
  call s :=
    match api.ziAPIConnect s conn serverAddress 8005 with
    | (r, s1) => (r, StderrLine.connected, s1)
  getError := api.ziAPIGetError
  onFailure := StderrLine.cantConnect

/-- The statements of `ziSetValueD`. -/
def ziSetValueDCode {σ : Type} (api : ZIAPI σ) (conn : ZIConnection) (value : ZIDoubleData) :
    StatusWrapper σ where
  call s :=
    match api.ziAPISetValueD s conn "/dev574/pids/0/setpoint" value with
    | (r, s1) => (r, fun _ => StderrLine.supposedSet value, s1)
  getError := api.ziAPIGetError
  onFailure := StderrLine.cantSet

/-- The statements of `ziSyncSetValueD`. -/
def ziSyncSetValueDCode {σ : Type} (api : ZIAPI σ) (conn : ZIConnection)
    (value : ZIDoubleData) : StatusWrapper σ where
  call s :=
    match api.ziAPISyncSetValueD s conn "/dev574/pids/0/setpoint" value with
    | (r, value1, s1) => (r, fun _ => StderrLine.supposedSet value1, s1)
  getError := api.ziAPIGetError
  onFailure := StderrLine.cantSet

/-- The statements of `ziTogglePID1`. -/
def ziTogglePID1Code {σ : Type} (api : ZIAPI σ) (conn : ZIConnection)
    (value : ZIIntegerData) : StatusWrapper σ where
  call s :=
    match api.ziAPISyncSetValueI s conn "/dev574/pids/0/enable" value with
    | (r, _, s1) => (r, fun _ => StderrLine.supposedToggle, s1)
  getError := api.ziAPIGetError
  onFailure := StderrLine.cantToggle

/-- The statements of `ziGetPID1`. -/
def ziGetPID1Code {σ : Type} (api : ZIAPI σ) (conn : ZIConnection) (value0 : ZIDoubleData) :
    StatusWrapper σ where
  call s :=
    match api.ziAPIGetValueD s conn "/dev574/pids/0/setpoint" with
    | (r, written, s1) => (r, fun _ => StderrLine.valueIs (written.getD value0), s1)
  getError := api.ziAPIGetError
  onFailure := StderrLine.cantGet

/-- Where a thread stands inside a wrapper: before `retVal = call(...)`, before the test
`retVal != ZI_INFO_SUCCESS`, before `ziAPIGetError(retVal, &errBuffer, NULL)`, before the
`fprintf` of either branch, before `return retVal`, or returned. -/
inductive WrapperPc where
  | atCall
  | atTest
  | atGetError
  | atPrintFailure
  | atPrintSuccess
  | atReturn
  | returned
  deriving DecidableEq, Repr

/-- What the threads of the process share: the library, the file-scope variables and
`stderr`. -/
structure Shared (σ : Type) where
  state : σ
  globals : Globals
  stderr : List StderrLine

/-- A thread inside a wrapper: its position, the success line (it depends on locals) and
the value it has returned. -/
structure WrapperThread where
  pc : WrapperPc
  successLine : ZIResult_enum → StderrLine
  ret : Option Int

/-- A thread that is about to enter a wrapper. -/
def WrapperThread.start : WrapperThread :=
  { pc := WrapperPc.atCall, successLine := StderrLine.connected, ret := none }

/-- One statement of a wrapper, executed by one thread. Every read of `retVal` and of
`errBuffer` is a read of the file-scope variable at that moment. -/
def WrapperThread.step {σ : Type} (code : StatusWrapper σ) (sh : Shared σ)
    (t : WrapperThread) : Shared σ × WrapperThread :=
  match t.pc with
  | WrapperPc.atCall =>
    match code.call sh.state with
    | (r, line, s1) =>
      ({ sh with state := s1, globals := { sh.globals with retVal := r } },
       { t with pc := WrapperPc.atTest, successLine := line })
  | WrapperPc.atTest =>
    if sh.globals.retVal ≠ ZI_INFO_SUCCESS then (sh, { t with pc := WrapperPc.atGetError })
    else (sh, { t with pc := WrapperPc.atPrintSuccess })
  | WrapperPc.atGetError =>
    ({ sh with
       globals := { sh.globals with errBuffer := some (code.getError sh.globals.retVal) } },
     { t with pc := WrapperPc.atPrintFailure })
  | WrapperPc.atPrintFailure =>
    ({ sh with stderr := sh.stderr ++ [code.onFailure (sh.globals.errBuffer.getD "")] },
     { t with pc := WrapperPc.atReturn })
  | WrapperPc.atPrintSuccess =>
    ({ sh with stderr := sh.stderr ++ [t.successLine sh.globals.retVal] },
     { t with pc := WrapperPc.atReturn })
  | WrapperPc.atReturn =>
    (sh, { t with pc := WrapperPc.returned, ret := some sh.globals.retVal })
  | WrapperPc.returned => (sh, t)

/-- Two threads, each inside one wrapper call, run under a schedule: `false` lets the
first thread execute its next statement, `true` the second. -/
def runSchedule {σ : Type} (codeA codeB : StatusWrapper σ) (sh : Shared σ)
    (a b : WrapperThread) : List Bool → Shared σ × WrapperThread × WrapperThread
  | [] => (sh, a, b)
  | false :: rest =>
    match a.step codeA sh with
    | (sh1, a1) => runSchedule codeA codeB sh1 a1 b rest
  | true :: rest =>
    match b.step codeB sh with
    | (sh1, b1) => runSchedule codeA codeB sh1 a b1 rest

/-- The schedule in which the first thread runs its call to the end before the second
thread starts: a wrapper has at most five statements on a path. -/
def serialSchedule : List Bool :=
  [false, false, false, false, false, true, true, true, true, true]

/-- A schedule in which the second thread executes `retVal = call(...)` between the
first thread's `retVal = call(...)` and its test of `retVal`. -/
def overlappingSchedule : List Bool :=
  [false, true, false, false, false, false, true, true, true, true]

/-- One thread running a wrapper from the call to the return with no other thread
active: the shared state afterwards and the thread. -/
def WrapperThread.runAlone {σ : Type} (code : StatusWrapper σ) (sh : Shared σ) :
    Shared σ × WrapperThread :=
  match runSchedule code code sh WrapperThread.start WrapperThread.start
    [false, false, false, false, false] with
  | (sh1, a, _) => (sh1, a)

/-- The outcome `w` of a wrapper of the sequential embedding is what the statement-level
run `r` produced, started with `err` already on `stderr`. -/
def WrapperRun.sameAs {σ α : Type} (w : WrapperRun σ α) (err : List StderrLine)
    (r : Shared σ × WrapperThread) : Prop :=
  r.1.state = w.state ∧ r.1.globals = w.globals ∧ r.1.stderr = err ++ w.stderr ∧
    r.2.ret = some w.ret
/-! ## Auxiliary facts -/

theorem isError_eq_false_iff (r : ZIResult_enum) : isError r = false ↔ r = ZI_INFO_SUCCESS := by
  simp [isError]

theorem isError_eq_true_iff (r : ZIResult_enum) : isError r = true ↔ r ≠ ZI_INFO_SUCCESS := by
  simp [isError]

theorem isError_success : isError ZI_INFO_SUCCESS = false := by decide

theorem isErrorCalls_success {σ : Type} (api : ZIAPI σ) : isErrorCalls api ZI_INFO_SUCCESS = [] := by
  simp [isErrorCalls, isError_success]

/-- Case analysis on a run of `ziCreateAPISession` up to the `ziAPIConnectEx` call: one
case for each place where the function leaves its main path. -/
theorem ziCreateAPISession_elim {σ : Type} (api : ZIAPI σ) (s : σ) (conn : ZIConnection)
    (deviceAddress : String) (maxSupportedApilevel : ZIAPIVersion_enum)
    (motive : SessionRun σ → Prop)
    (hFind : ∀ r0 deviceId s0,
      api.ziAPIDiscoveryFind s conn deviceAddress = (r0, deviceId, s0) → isError r0 = true →
      motive { state := s0
               trace := [Call.ziAPIDiscoveryFind conn deviceAddress r0 deviceId] ++
                 isErrorCalls api r0
               ret := some 1
               deviceId := deviceId })
    (hDiscoverable : ∀ deviceId s0 r1 discoverable s1,
      api.ziAPIDiscoveryFind s conn deviceAddress = (ZI_INFO_SUCCESS, deviceId, s0) →
      api.ziAPIDiscoveryGetValueI s0 conn deviceId "discoverable" = (r1, discoverable, s1) →
      isError r1 = true →
      motive (catchRuntimeError api s1
        [Call.ziAPIDiscoveryFind conn deviceAddress ZI_INFO_SUCCESS deviceId,
         Call.ziAPIDiscoveryGetValueI conn deviceId "discoverable" r1 discoverable]
        conn deviceId r1))
    (hNotDiscoverable : ∀ deviceId s0 discoverable s1,
      api.ziAPIDiscoveryFind s conn deviceAddress = (ZI_INFO_SUCCESS, deviceId, s0) →
      api.ziAPIDiscoveryGetValueI s0 conn deviceId "discoverable" =
        (ZI_INFO_SUCCESS, discoverable, s1) →
      discoverable ≠ 1 →
      motive { state := s1
               trace := [Call.ziAPIDiscoveryFind conn deviceAddress ZI_INFO_SUCCESS deviceId,
                 Call.ziAPIDiscoveryGetValueI conn deviceId "discoverable" ZI_INFO_SUCCESS
                   discoverable,
                 Call.ziAPIWriteDebugLog 4 (Message.notDiscoverable deviceId)]
               ret := some 1
               deviceId := deviceId })
    (hServeraddress : ∀ deviceId s0 s1 r2 serveraddress s2,
      api.ziAPIDiscoveryFind s conn deviceAddress = (ZI_INFO_SUCCESS, deviceId, s0) →
      api.ziAPIDiscoveryGetValueI s0 conn deviceId "discoverable" = (ZI_INFO_SUCCESS, 1, s1) →
      api.ziAPIDiscoveryGetValueS s1 conn deviceId "serveraddress" = (r2, serveraddress, s2) →
      isError r2 = true →
      motive (catchRuntimeError api s2
        [Call.ziAPIDiscoveryFind conn deviceAddress ZI_INFO_SUCCESS deviceId,
         Call.ziAPIDiscoveryGetValueI conn deviceId "discoverable" ZI_INFO_SUCCESS 1,
         Call.ziAPIWriteDebugLog 0 (Message.discovered deviceId),
         Call.ziAPIDiscoveryGetValueS conn deviceId "serveraddress" r2 serveraddress]
        conn deviceId r2))
    (hServerport : ∀ deviceId s0 s1 serveraddress s2 r3 serverport s3,
      api.ziAPIDiscoveryFind s conn deviceAddress = (ZI_INFO_SUCCESS, deviceId, s0) →
      api.ziAPIDiscoveryGetValueI s0 conn deviceId "discoverable" = (ZI_INFO_SUCCESS, 1, s1) →
      api.ziAPIDiscoveryGetValueS s1 conn deviceId "serveraddress" =
        (ZI_INFO_SUCCESS, serveraddress, s2) →
      api.ziAPIDiscoveryGetValueI s2 conn deviceId "serverport" = (r3, serverport, s3) →
      isError r3 = true →
      motive (catchRuntimeError api s3
        [Call.ziAPIDiscoveryFind conn deviceAddress ZI_INFO_SUCCESS deviceId,
         Call.ziAPIDiscoveryGetValueI conn deviceId "discoverable" ZI_INFO_SUCCESS 1,
         Call.ziAPIWriteDebugLog 0 (Message.discovered deviceId),
         Call.ziAPIDiscoveryGetValueS conn deviceId "serveraddress" ZI_INFO_SUCCESS
           serveraddress,
         Call.ziAPIDiscoveryGetValueI conn deviceId "serverport" r3 serverport]
        conn deviceId r3))
    (hApilevel : ∀ deviceId s0 s1 serveraddress s2 serverport s3 r4 apilevel s4,
      api.ziAPIDiscoveryFind s conn deviceAddress = (ZI_INFO_SUCCESS, deviceId, s0) →
      api.ziAPIDiscoveryGetValueI s0 conn deviceId "discoverable" = (ZI_INFO_SUCCESS, 1, s1) →
      api.ziAPIDiscoveryGetValueS s1 conn deviceId "serveraddress" =
        (ZI_INFO_SUCCESS, serveraddress, s2) →
      api.ziAPIDiscoveryGetValueI s2 conn deviceId "serverport" =
        (ZI_INFO_SUCCESS, serverport, s3) →
      api.ziAPIDiscoveryGetValueI s3 conn deviceId "apilevel" = (r4, apilevel, s4) →
      isError r4 = true →
      motive (catchRuntimeError api s4
        [Call.ziAPIDiscoveryFind conn deviceAddress ZI_INFO_SUCCESS deviceId,
         Call.ziAPIDiscoveryGetValueI conn deviceId "discoverable" ZI_INFO_SUCCESS 1,
         Call.ziAPIWriteDebugLog 0 (Message.discovered deviceId),
         Call.ziAPIDiscoveryGetValueS conn deviceId "serveraddress" ZI_INFO_SUCCESS
           serveraddress,
         Call.ziAPIDiscoveryGetValueI conn deviceId "serverport" ZI_INFO_SUCCESS serverport,
         Call.ziAPIDiscoveryGetValueI conn deviceId "apilevel" r4 apilevel]
        conn deviceId r4))
    (hConnected : ∀ deviceId s0 s1 serveraddress s2 serverport s3 apilevel s4 r5 connected s5,
      api.ziAPIDiscoveryFind s conn deviceAddress = (ZI_INFO_SUCCESS, deviceId, s0) →
      api.ziAPIDiscoveryGetValueI s0 conn deviceId "discoverable" = (ZI_INFO_SUCCESS, 1, s1) →
      api.ziAPIDiscoveryGetValueS s1 conn deviceId "serveraddress" =
        (ZI_INFO_SUCCESS, serveraddress, s2) →
      api.ziAPIDiscoveryGetValueI s2 conn deviceId "serverport" =
        (ZI_INFO_SUCCESS, serverport, s3) →
      api.ziAPIDiscoveryGetValueI s3 conn deviceId "apilevel" =
        (ZI_INFO_SUCCESS, apilevel, s4) →
      api.ziAPIDiscoveryGetValueS s4 conn deviceId "connected" = (r5, connected, s5) →
      isError r5 = true →
      motive (catchRuntimeError api s5
        [Call.ziAPIDiscoveryFind conn deviceAddress ZI_INFO_SUCCESS deviceId,
         Call.ziAPIDiscoveryGetValueI conn deviceId "discoverable" ZI_INFO_SUCCESS 1,
         Call.ziAPIWriteDebugLog 0 (Message.discovered deviceId),
         Call.ziAPIDiscoveryGetValueS conn deviceId "serveraddress" ZI_INFO_SUCCESS
           serveraddress,
         Call.ziAPIDiscoveryGetValueI conn deviceId "serverport" ZI_INFO_SUCCESS serverport,
         Call.ziAPIDiscoveryGetValueI conn deviceId "apilevel" ZI_INFO_SUCCESS apilevel,
         Call.ziAPIDiscoveryGetValueS conn deviceId "connected" r5 connected]
        conn deviceId r5))
    (hConnectEx : ∀ deviceId s0 s1 serveraddress s2 serverport s3 apilevel s4 connected s5
        r6 s6,
      api.ziAPIDiscoveryFind s conn deviceAddress = (ZI_INFO_SUCCESS, deviceId, s0) →
      api.ziAPIDiscoveryGetValueI s0 conn deviceId "discoverable" = (ZI_INFO_SUCCESS, 1, s1) →
      api.ziAPIDiscoveryGetValueS s1 conn deviceId "serveraddress" =
        (ZI_INFO_SUCCESS, serveraddress, s2) →
      api.ziAPIDiscoveryGetValueI s2 conn deviceId "serverport" =
        (ZI_INFO_SUCCESS, serverport, s3) →
      api.ziAPIDiscoveryGetValueI s3 conn deviceId "apilevel" =
        (ZI_INFO_SUCCESS, apilevel, s4) →
      api.ziAPIDiscoveryGetValueS s4 conn deviceId "connected" =
        (ZI_INFO_SUCCESS, connected, s5) →
      api.ziAPIConnectEx s5 conn serveraddress (toUInt16 serverport)
        (toEnum32 (apilevelConnection maxSupportedApilevel apilevel)) none = (r6, s6) →
      isError r6 = true →
      motive (catchRuntimeError api s6
        [Call.ziAPIDiscoveryFind conn deviceAddress ZI_INFO_SUCCESS deviceId,
         Call.ziAPIDiscoveryGetValueI conn deviceId "discoverable" ZI_INFO_SUCCESS 1,
         Call.ziAPIWriteDebugLog 0 (Message.discovered deviceId),
         Call.ziAPIDiscoveryGetValueS conn deviceId "serveraddress" ZI_INFO_SUCCESS
           serveraddress,
         Call.ziAPIDiscoveryGetValueI conn deviceId "serverport" ZI_INFO_SUCCESS serverport,
         Call.ziAPIDiscoveryGetValueI conn deviceId "apilevel" ZI_INFO_SUCCESS apilevel,
         Call.ziAPIDiscoveryGetValueS conn deviceId "connected" ZI_INFO_SUCCESS connected,
         Call.ziAPIWriteDebugLog 0 (Message.creatingSession serveraddress serverport apilevel),
         Call.ziAPIConnectEx conn serveraddress (toUInt16 serverport)
           (toEnum32 (apilevelConnection maxSupportedApilevel apilevel)) none r6]
        conn deviceId r6))
    (hSession : ∀ deviceId s0 s1 serveraddress s2 serverport s3 apilevel s4 connected s5 s6,
      api.ziAPIDiscoveryFind s conn deviceAddress = (ZI_INFO_SUCCESS, deviceId, s0) →
      api.ziAPIDiscoveryGetValueI s0 conn deviceId "discoverable" = (ZI_INFO_SUCCESS, 1, s1) →
      api.ziAPIDiscoveryGetValueS s1 conn deviceId "serveraddress" =
        (ZI_INFO_SUCCESS, serveraddress, s2) →
      api.ziAPIDiscoveryGetValueI s2 conn deviceId "serverport" =
        (ZI_INFO_SUCCESS, serverport, s3) →
      api.ziAPIDiscoveryGetValueI s3 conn deviceId "apilevel" =
        (ZI_INFO_SUCCESS, apilevel, s4) →
      api.ziAPIDiscoveryGetValueS s4 conn deviceId "connected" =
        (ZI_INFO_SUCCESS, connected, s5) →
      api.ziAPIConnectEx s5 conn serveraddress (toUInt16 serverport)
        (toEnum32 (apilevelConnection maxSupportedApilevel apilevel)) none = (ZI_INFO_SUCCESS, s6) →
      motive (connectDeviceStep api s6
        [Call.ziAPIDiscoveryFind conn deviceAddress ZI_INFO_SUCCESS deviceId,
         Call.ziAPIDiscoveryGetValueI conn deviceId "discoverable" ZI_INFO_SUCCESS 1,
         Call.ziAPIWriteDebugLog 0 (Message.discovered deviceId),
         Call.ziAPIDiscoveryGetValueS conn deviceId "serveraddress" ZI_INFO_SUCCESS
           serveraddress,
         Call.ziAPIDiscoveryGetValueI conn deviceId "serverport" ZI_INFO_SUCCESS serverport,
         Call.ziAPIDiscoveryGetValueI conn deviceId "apilevel" ZI_INFO_SUCCESS apilevel,
         Call.ziAPIDiscoveryGetValueS conn deviceId "connected" ZI_INFO_SUCCESS connected,
         Call.ziAPIWriteDebugLog 0 (Message.creatingSession serveraddress serverport apilevel),
         Call.ziAPIConnectEx conn serveraddress (toUInt16 serverport)
           (toEnum32 (apilevelConnection maxSupportedApilevel apilevel)) none ZI_INFO_SUCCESS]
        conn deviceId connected)) :
    motive (ziCreateAPISession api s conn deviceAddress maxSupportedApilevel) := by
  unfold ziCreateAPISession
  split
  rename_i r0 deviceId s0 h0
  split
  · rename_i e0; exact hFind r0 deviceId s0 h0 e0
  rename_i e0
  obtain rfl : r0 = ZI_INFO_SUCCESS := (isError_eq_false_iff r0).1 (by simpa using e0)
  split
  rename_i r1 discoverable s1 h1
  split
  · rename_i e1; exact hDiscoverable deviceId s0 r1 discoverable s1 h0 h1 e1
  rename_i e1
  obtain rfl : r1 = ZI_INFO_SUCCESS := (isError_eq_false_iff r1).1 (by simpa using e1)
  split
  · rename_i ed; exact hNotDiscoverable deviceId s0 discoverable s1 h0 h1 ed
  rename_i ed
  obtain rfl : discoverable = 1 := not_not.1 ed
  split
  rename_i r2 serveraddress s2 h2
  split
  · rename_i e2; exact hServeraddress deviceId s0 s1 r2 serveraddress s2 h0 h1 h2 e2
  rename_i e2
  obtain rfl : r2 = ZI_INFO_SUCCESS := (isError_eq_false_iff r2).1 (by simpa using e2)
  split
  rename_i r3 serverport s3 h3
  split
  · rename_i e3
    exact hServerport deviceId s0 s1 serveraddress s2 r3 serverport s3 h0 h1 h2 h3 e3
  rename_i e3
  obtain rfl : r3 = ZI_INFO_SUCCESS := (isError_eq_false_iff r3).1 (by simpa using e3)
  split
  rename_i r4 apilevel s4 h4
  split
  · rename_i e4
    exact hApilevel deviceId s0 s1 serveraddress s2 serverport s3 r4 apilevel s4
      h0 h1 h2 h3 h4 e4
  rename_i e4
  obtain rfl : r4 = ZI_INFO_SUCCESS := (isError_eq_false_iff r4).1 (by simpa using e4)
  split
  rename_i r5 connected s5 h5
  split
  · rename_i e5
    exact hConnected deviceId s0 s1 serveraddress s2 serverport s3 apilevel s4 r5 connected s5
      h0 h1 h2 h3 h4 h5 e5
  rename_i e5
  obtain rfl : r5 = ZI_INFO_SUCCESS := (isError_eq_false_iff r5).1 (by simpa using e5)
  split
  rename_i r6 s6 h6
  split
  · rename_i e6
    exact hConnectEx deviceId s0 s1 serveraddress s2 serverport s3 apilevel s4 connected s5
      r6 s6 h0 h1 h2 h3 h4 h5 h6 e6
  rename_i e6
  obtain rfl : r6 = ZI_INFO_SUCCESS := (isError_eq_false_iff r6).1 (by simpa using e6)
  exact hSession deviceId s0 s1 serveraddress s2 serverport s3 apilevel s4 connected s5 s6
    h0 h1 h2 h3 h4 h5 h6

/-- Case analysis on the tail of `ziCreateAPISession` that follows a successful
`ziAPIConnectEx`. -/
theorem connectDeviceStep_elim {σ : Type} (api : ZIAPI σ) (s : σ) (tr : List Call)
    (conn : ZIConnection) (deviceId connected : String) (motive : SessionRun σ → Prop)
    (hAlready : connected ≠ "" →
      motive { state := s
               trace := tr ++ [Call.ziAPIWriteDebugLog 0 (Message.alreadyConnected connected)]
               ret := some 0
               deviceId := deviceId })
    (hInterfaces : ∀ r1 interfaces s1, connected = "" →
      api.ziAPIDiscoveryGetValueS s conn deviceId "interfaces" = (r1, interfaces, s1) →
      isError r1 = true →
      motive (catchRuntimeError api s1
        (tr ++ [Call.ziAPIDiscoveryGetValueS conn deviceId "interfaces" r1 interfaces])
        conn deviceId r1))
    (hNull : ∀ interfaces s1, connected = "" →
      api.ziAPIDiscoveryGetValueS s conn deviceId "interfaces" =
        (ZI_INFO_SUCCESS, interfaces, s1) →
      strtok_r interfaces "\n" = none →
      motive { state := s1
               trace := tr ++
                 [Call.ziAPIDiscoveryGetValueS conn deviceId "interfaces" ZI_INFO_SUCCESS
                    interfaces,
                  Call.ziAPIWriteDebugLog 0 (Message.notConnected interfaces)]
               ret := none
               deviceId := deviceId })
    (hEmpty : ∀ interfaces s1, connected = "" →
      api.ziAPIDiscoveryGetValueS s conn deviceId "interfaces" =
        (ZI_INFO_SUCCESS, interfaces, s1) →
      strtok_r interfaces "\n" = some "" →
      motive { state := s1
               trace := tr ++
                 [Call.ziAPIDiscoveryGetValueS conn deviceId "interfaces" ZI_INFO_SUCCESS
                    interfaces,
                  Call.ziAPIWriteDebugLog 0 (Message.notConnected interfaces),
                  Call.ziAPIWriteDebugLog 4 (Message.noInterface deviceId)]
               ret := some 1
               deviceId := deviceId })
    (hDevice : ∀ interfaces s1 interfaceConnection r2 s2, connected = "" →
      api.ziAPIDiscoveryGetValueS s conn deviceId "interfaces" =
        (ZI_INFO_SUCCESS, interfaces, s1) →
      strtok_r interfaces "\n" = some interfaceConnection →
      interfaceConnection ≠ "" →
      api.ziAPIConnectDevice s1 conn deviceId interfaceConnection none = (r2, s2) →
      isError r2 = true →
      motive (catchRuntimeError api s2
        (tr ++
          [Call.ziAPIDiscoveryGetValueS conn deviceId "interfaces" ZI_INFO_SUCCESS interfaces,
           Call.ziAPIWriteDebugLog 0 (Message.notConnected interfaces),
           Call.ziAPIWriteDebugLog 0 (Message.willConnect interfaceConnection),
           Call.ziAPIConnectDevice conn deviceId interfaceConnection none r2])
        conn deviceId r2))
    (hDone : ∀ interfaces s1 interfaceConnection s2, connected = "" →
      api.ziAPIDiscoveryGetValueS s conn deviceId "interfaces" =
        (ZI_INFO_SUCCESS, interfaces, s1) →
      strtok_r interfaces "\n" = some interfaceConnection →
      interfaceConnection ≠ "" →
      api.ziAPIConnectDevice s1 conn deviceId interfaceConnection none =
        (ZI_INFO_SUCCESS, s2) →
      motive { state := s2
               trace := tr ++
                 [Call.ziAPIDiscoveryGetValueS conn deviceId "interfaces" ZI_INFO_SUCCESS
                    interfaces,
                  Call.ziAPIWriteDebugLog 0 (Message.notConnected interfaces),
                  Call.ziAPIWriteDebugLog 0 (Message.willConnect interfaceConnection),
                  Call.ziAPIConnectDevice conn deviceId interfaceConnection none
                    ZI_INFO_SUCCESS]
               ret := some 0
               deviceId := deviceId }) :
    motive (connectDeviceStep api s tr conn deviceId connected) := by
  unfold connectDeviceStep
  split
  · rename_i hc; exact hAlready hc
  rename_i hc
  have hc0 : connected = "" := not_not.1 hc
  split
  rename_i r1 interfaces s1 h1
  split
  · rename_i e1; exact hInterfaces r1 interfaces s1 hc0 h1 e1
  rename_i e1
  obtain rfl : r1 = ZI_INFO_SUCCESS := (isError_eq_false_iff r1).1 (by simpa using e1)
  split
  · rename_i hn
    simpa using hNull interfaces s1 hc0 h1 hn
  rename_i interfaceConnection hi
  split
  · rename_i he
    subst he
    simpa using hEmpty interfaces s1 hc0 h1 hi
  rename_i he
  split
  rename_i r2 s2 h2
  split
  · rename_i e2
    simpa using hDevice interfaces s1 interfaceConnection r2 s2 hc0 h1 hi he h2 e2
  rename_i e2
  obtain rfl : r2 = ZI_INFO_SUCCESS := (isError_eq_false_iff r2).1 (by simpa using e2)
  simpa using hDone interfaces s1 interfaceConnection s2 hc0 h1 hi he h2


theorem toEnum32_of_isInt32 (x : Int) (h : isInt32 x) : toEnum32 x = x := by
  unfold toEnum32; unfold isInt32 at h; omega

theorem toEnum32_apilevelConnection (m al : Int) (hm : isInt32 m)
    (hal : (-2147483648 : Int) ≤ al) : toEnum32 (apilevelConnection m al) = min m al := by
  unfold isInt32 at hm
  unfold apilevelConnection
  by_cases h : m < al
  · rw [if_pos h, toEnum32_of_isInt32 _ (by unfold isInt32; omega), min_eq_left (le_of_lt h)]
  · rw [if_neg h, toEnum32_of_isInt32 _ (by unfold isInt32; omega),
      min_eq_right (not_lt.1 h)]

theorem catchRuntimeError_trace {σ : Type} (api : ZIAPI σ) (s : σ) (tr : List Call)
    (conn : ZIConnection) (deviceId : String) (rc : ZIResult_enum) :
    (catchRuntimeError api s tr conn deviceId rc).trace =
      tr ++ [Call.ziAPIGetError rc (api.ziAPIGetError rc),
        Call.ziAPIGetLastError conn 1024 (api.ziAPIGetLastError s conn 1024).1
          (api.ziAPIGetLastError s conn 1024).2.1,
        Call.ziAPIWriteDebugLog 4 (Message.sessionError (api.ziAPIGetError rc)
          ((api.ziAPIGetLastError s conn 1024).2.1.getD ""))] := by
  unfold catchRuntimeError
  rfl

theorem catchRuntimeError_ret {σ : Type} (api : ZIAPI σ) (s : σ) (tr : List Call)
    (conn : ZIConnection) (deviceId : String) (rc : ZIResult_enum) :
    (catchRuntimeError api s tr conn deviceId rc).ret = some 1 := by
  unfold catchRuntimeError
  rfl

theorem catchRuntimeError_deviceId {σ : Type} (api : ZIAPI σ) (s : σ) (tr : List Call)
    (conn : ZIConnection) (deviceId : String) (rc : ZIResult_enum) :
    (catchRuntimeError api s tr conn deviceId rc).deviceId = deviceId := by
  unfold catchRuntimeError
  rfl

/-! ## C1: the API level handed to `ziAPIConnectEx` -/

theorem isInt32_toEnum32 (x : Int) : isInt32 (toEnum32 x) := by
  unfold isInt32 toEnum32; omega

/-- C1, evaluated on the code: `ziCreateAPISession` computes the minimum of
`maxSupportedApilevel` and the device's `apilevel` in the 64-bit `ZIIntegerData` and then
converts it with `static_cast<ZIAPIVersion_enum>`. When that minimum is not a value of the
32-bit enumeration, the level that `ziAPIConnectEx` receives, which is one, is not the
minimum, whatever the conversion makes of it. -/
theorem ziCreateAPISession_apiLevel_out_of_range {σ : Type} (api : ZIAPI σ) (s : σ)
    (conn : ZIConnection) (deviceAddress : String) (maxSupportedApilevel : Int)
    (run : SessionRun σ)
    (hrun : ziCreateAPISession api s conn deviceAddress maxSupportedApilevel = run)
    (deviceId : String) (r : ZIResult_enum) (apilevel : Int)
    (hostname : String) (port : Int) (apiLevel : Int)
    (implementation : Option String) (result : ZIResult_enum)
    (hq : Call.ziAPIDiscoveryGetValueI conn deviceId "apilevel" r apilevel ∈ run.trace)
    (hc : Call.ziAPIConnectEx conn hostname port apiLevel implementation result ∈ run.trace)
    (hout : ¬ isInt32 (min maxSupportedApilevel apilevel)) :
    apiLevel = toEnum32 (min maxSupportedApilevel apilevel) ∧ isInt32 apiLevel ∧
      apiLevel ≠ min maxSupportedApilevel apilevel := by
  subst hrun
  have hmin : apilevelConnection maxSupportedApilevel apilevel =
      min maxSupportedApilevel apilevel := by
    unfold apilevelConnection
    by_cases h : maxSupportedApilevel < apilevel
    · rw [if_pos h, min_eq_left (le_of_lt h)]
    · rw [if_neg h, min_eq_right (not_lt.1 h)]
  have key : apiLevel = toEnum32 (apilevelConnection maxSupportedApilevel apilevel) := by
    revert hq hc
    apply ziCreateAPISession_elim api s conn deviceAddress maxSupportedApilevel
      (fun run =>
        Call.ziAPIDiscoveryGetValueI conn deviceId "apilevel" r apilevel ∈ run.trace →
        Call.ziAPIConnectEx conn hostname port apiLevel implementation result ∈ run.trace →
        apiLevel = toEnum32 (apilevelConnection maxSupportedApilevel apilevel))
    case hSession =>
      intro id s0 s1 sa s2 sp s3 al s4 cn s5 s6 _ _ _ _ _ _ _
      apply connectDeviceStep_elim api s6 _ conn id cn
        (fun run =>
          Call.ziAPIDiscoveryGetValueI conn deviceId "apilevel" r apilevel ∈ run.trace →
          Call.ziAPIConnectEx conn hostname port apiLevel implementation result ∈
            run.trace →
          apiLevel = toEnum32 (apilevelConnection maxSupportedApilevel apilevel))
      all_goals intros
      all_goals simp_all [catchRuntimeError_trace]
    all_goals intros
    all_goals simp_all [catchRuntimeError_trace, isErrorCalls]
  rw [hmin] at key
  have hi : isInt32 apiLevel := key ▸ isInt32_toEnum32 _
  exact ⟨key, hi, fun e => hout (e ▸ hi)⟩

/-- A device that reports the 64-bit `apilevel` `5 - 2^32` to a client whose maximum is
`ZI_API_VERSION_4`: the minimum of the two is `5 - 2^32`, and the level handed to
`ziAPIConnectEx` is a 32-bit value, hence another one. -/
theorem ziCreateAPISession_apiLevel_out_of_range_witness :
    ∃ apiLevel,
      Call.ziAPIConnectEx 1 "127.0.0.1" 8004 apiLevel none ZI_INFO_SUCCESS ∈
        (ziCreateAPISession
          (scriptedAPI { scenarioScript with apilevel := (ZI_INFO_SUCCESS, -4294967291) })
          () 1 "dev1234" ZI_API_VERSION_4).trace ∧
      isInt32 apiLevel ∧ apiLevel ≠ min ZI_API_VERSION_4 (-4294967291) :=
  ⟨5, by decide,
   (ziCreateAPISession_apiLevel_out_of_range
      (scriptedAPI { scenarioScript with apilevel := (ZI_INFO_SUCCESS, -4294967291) })
      () 1 "dev1234" ZI_API_VERSION_4 _ rfl "DEV1234" ZI_INFO_SUCCESS (-4294967291)
      "127.0.0.1" 8004 5 none ZI_INFO_SUCCESS (by decide) (by decide) (by decide)).2⟩

/-- Where the conversion is the identity, the code does what its doc comment says: for
every `maxSupportedApilevel` (a value of the 32-bit enumeration) and every device-reported
`apilevel` that is not below `-2^31`, the API level of every `ziAPIConnectEx` call of
`ziCreateAPISession` is `min maxSupportedApilevel apilevel`; it exceeds neither the
client's maximum nor the device's level. -/
theorem ziCreateAPISession_apiLevel_min {σ : Type} (api : ZIAPI σ) (s : σ)
    (conn : ZIConnection) (deviceAddress : String) (maxSupportedApilevel : Int)
    (run : SessionRun σ)
    (hrun : ziCreateAPISession api s conn deviceAddress maxSupportedApilevel = run)
    (hmax : isInt32 maxSupportedApilevel)
    (deviceId : String) (r : ZIResult_enum) (apilevel : Int)
    (hostname : String) (port : Int) (apiLevel : Int)
    (implementation : Option String) (result : ZIResult_enum)
    (hq : Call.ziAPIDiscoveryGetValueI conn deviceId "apilevel" r apilevel ∈ run.trace)
    (hc : Call.ziAPIConnectEx conn hostname port apiLevel implementation result ∈ run.trace)
    (hlo : (-2147483648 : Int) ≤ apilevel) :
    apiLevel = min maxSupportedApilevel apilevel ∧ apiLevel ≤ maxSupportedApilevel ∧
      apiLevel ≤ apilevel := by
  subst hrun
  have key := toEnum32_apilevelConnection maxSupportedApilevel apilevel hmax hlo
  revert hq hc
  apply ziCreateAPISession_elim api s conn deviceAddress maxSupportedApilevel
    (fun run => Call.ziAPIDiscoveryGetValueI conn deviceId "apilevel" r apilevel ∈ run.trace →
      Call.ziAPIConnectEx conn hostname port apiLevel implementation result ∈ run.trace →
      apiLevel = min maxSupportedApilevel apilevel ∧ apiLevel ≤ maxSupportedApilevel ∧
      apiLevel ≤ apilevel)
  case hSession =>
    intro id s0 s1 sa s2 sp s3 al s4 cn s5 s6 _ _ _ _ _ _ _
    apply connectDeviceStep_elim api s6 _ conn id cn
      (fun run => Call.ziAPIDiscoveryGetValueI conn deviceId "apilevel" r apilevel ∈ run.trace →
        Call.ziAPIConnectEx conn hostname port apiLevel implementation result ∈ run.trace →
        apiLevel = min maxSupportedApilevel apilevel ∧ apiLevel ≤ maxSupportedApilevel ∧
        apiLevel ≤ apilevel)
    all_goals intros
    all_goals simp_all [catchRuntimeError_trace]
  all_goals intros
  all_goals simp_all [catchRuntimeError_trace, isErrorCalls]

/-- The scenario of the spec: device level 6, client maximum 4, level 4 is used. -/
theorem ziCreateAPISession_apiLevel_min_witness :
    (4 : Int) = min ZI_API_VERSION_4 6 ∧ (4 : Int) ≤ ZI_API_VERSION_4 ∧ (4 : Int) ≤ 6 :=
  ziCreateAPISession_apiLevel_min
    (scriptedAPI { scenarioScript with apilevel := (ZI_INFO_SUCCESS, 6) }) () 1 "dev1234"
    ZI_API_VERSION_4 _ rfl (by decide) "DEV1234" ZI_INFO_SUCCESS 6 "127.0.0.1" 8004 4 none
    ZI_INFO_SUCCESS (by decide) (by decide) (by decide)

theorem splitOnP_head {α : Type} (p : α → Bool) (xs : List α) :
    ∃ tl, xs.splitOnP p = xs.takeWhile (fun a => !p a) :: tl := by
  induction xs with
  | nil => exact ⟨[], rfl⟩
  | cons x xs ih =>
    obtain ⟨tl, h⟩ := ih
    rw [List.splitOnP_cons]
    by_cases hx : p x = true
    · rw [if_pos hx]
      exact ⟨xs.splitOnP p, by simp [List.takeWhile, hx]⟩
    · rw [if_neg hx, h]
      exact ⟨tl, by simp [List.takeWhile, hx, List.modifyHead]⟩

theorem find_splitOnP {α : Type} (p : α → Bool) (xs : List α) :
    (xs.splitOnP p).find? (fun e => !e.isEmpty) =
      match xs.dropWhile p with
      | [] => none
      | c :: rest => some ((c :: rest).takeWhile (fun a => !p a)) := by
  induction xs with
  | nil => rfl
  | cons x xs ih =>
    rw [List.splitOnP_cons]
    by_cases hx : p x = true
    · rw [if_pos hx]
      simp only [List.find?, List.isEmpty, Bool.not_true, List.dropWhile, hx]
      exact ih
    · rw [if_neg hx]
      obtain ⟨tl, h⟩ := splitOnP_head p xs
      rw [h]
      simp [List.modifyHead, List.dropWhile, List.takeWhile, hx]

theorem strtok_r_newline (value : String) : strtok_r value "\n" = firstNonEmptyEntry value := by
  have hp : (fun c => "\n".toList.contains c) = fun c : Char => c == Char.ofNat 10 := by
    funext c
    show List.elem c [Char.ofNat 10] = (c == Char.ofNat 10)
    simp only [List.elem]
    cases (c == Char.ofNat 10) <;> rfl
  have hq : (fun d => !"\n".toList.contains d) = fun c : Char => !(c == Char.ofNat 10) := by
    funext c
    show (!List.elem c [Char.ofNat 10]) = !(c == Char.ofNat 10)
    simp only [List.elem]
    cases (c == Char.ofNat 10) <;> rfl
  unfold strtok_r firstNonEmptyEntry List.splitOn
  rw [hp, hq, find_splitOnP]
  cases value.toList.dropWhile (fun c => c == Char.ofNat 10) <;> rfl

theorem dropWhile_head_false {α : Type} (p : α → Bool) (l : List α) (c : α)
    (rest : List α) (h : l.dropWhile p = c :: rest) : p c = false := by
  induction l with
  | nil => simp at h
  | cons x xs ih =>
    by_cases hx : p x = true
    · simp only [List.dropWhile, hx] at h
      exact ih h
    · simp only [List.dropWhile, hx] at h
      have hxc : x = c := (List.cons.inj h).1
      subst hxc
      simpa using hx

theorem strtok_r_ne_empty (value delim entry : String)
    (h : strtok_r value delim = some entry) : entry ≠ "" := by
  unfold strtok_r at h
  split at h
  · simp at h
  · rename_i c rest hd
    have hc := dropWhile_head_false _ _ _ _ hd
    simp only [Option.some.injEq] at h
    subst h
    intro he
    have hdata : List.takeWhile (fun d => !delim.toList.contains d) (c :: rest) = [] :=
      congrArg String.data he
    rw [List.takeWhile_cons] at hdata
    rw [hc] at hdata
    simp at hdata

/-! ## C2: when `ziAPIConnectDevice` is called -/

/-- C2, as stated, fails: with `connected` empty and a successful `ziAPIConnectEx`, a
failing query of the `interfaces` property ends `ziCreateAPISession` with 1 before any
`ziAPIConnectDevice` call. -/
theorem ziCreateAPISession_connectDevice_not_called :
    Call.ziAPIConnectEx 1 "127.0.0.1" 8004 4 none ZI_INFO_SUCCESS ∈
      (ziCreateAPISession
        (scriptedAPI { unconnectedScript with interfaces := (ZI_ERROR_TIMEOUT, "") })
        () 1 "dev1234" ZI_API_VERSION_4).trace ∧
    Call.ziAPIDiscoveryGetValueS 1 "DEV1234" "connected" ZI_INFO_SUCCESS "" ∈
      (ziCreateAPISession
        (scriptedAPI { unconnectedScript with interfaces := (ZI_ERROR_TIMEOUT, "") })
        () 1 "dev1234" ZI_API_VERSION_4).trace ∧
    (ziCreateAPISession
        (scriptedAPI { unconnectedScript with interfaces := (ZI_ERROR_TIMEOUT, "") })
        () 1 "dev1234" ZI_API_VERSION_4).trace.all (fun c => !c.isConnectDevice) = true ∧
    (ziCreateAPISession
        (scriptedAPI { unconnectedScript with interfaces := (ZI_ERROR_TIMEOUT, "") })
        () 1 "dev1234" ZI_API_VERSION_4).ret = some 1 := by
  decide

/-- C2, amended: in a run of `ziCreateAPISession` in which `ziAPIConnectEx` succeeded and
the `connected` property was read as `connected`,
* if `connected` is not empty, no `ziAPIConnectDevice` call is made and 0 is returned;
* a `ziAPIConnectDevice` call is made only if `connected` is empty, and it receives the
  device ID and the first non-empty newline-delimited entry of the `interfaces` property;
* if `connected` is empty, the `interfaces` query succeeds and the property has a
  non-empty entry, the call is made. -/
theorem ziCreateAPISession_connectDevice {σ : Type} (api : ZIAPI σ) (s : σ)
    (conn : ZIConnection) (deviceAddress : String) (maxSupportedApilevel : Int)
    (run : SessionRun σ)
    (hrun : ziCreateAPISession api s conn deviceAddress maxSupportedApilevel = run)
    (hostname : String) (port : Int) (apiLevel : Int) (implementation : Option String)
    (deviceId : String) (r : ZIResult_enum) (connected : String)
    (hx : Call.ziAPIConnectEx conn hostname port apiLevel implementation ZI_INFO_SUCCESS ∈
      run.trace)
    (hcn : Call.ziAPIDiscoveryGetValueS conn deviceId "connected" r connected ∈ run.trace) :
    (connected ≠ "" → run.ret = some 0 ∧ ∀ c ∈ run.trace, c.isConnectDevice = false) ∧
    (∀ c ∈ run.trace, c.isConnectDevice = true →
      connected = "" ∧ ∃ ri interfaces entry rr,
        Call.ziAPIDiscoveryGetValueS conn deviceId "interfaces" ri interfaces ∈ run.trace ∧
        firstNonEmptyEntry interfaces = some entry ∧
        c = Call.ziAPIConnectDevice conn run.deviceId entry none rr) ∧
    (connected = "" → ∀ interfaces entry,
      Call.ziAPIDiscoveryGetValueS conn deviceId "interfaces" ZI_INFO_SUCCESS interfaces ∈
        run.trace →
      firstNonEmptyEntry interfaces = some entry →
      ∃ rr, Call.ziAPIConnectDevice conn run.deviceId entry none rr ∈ run.trace) := by
  refine ziCreateAPISession_elim api s conn deviceAddress maxSupportedApilevel
    (fun r0 => r0 = run → _) ?_ ?_ ?_ ?_ ?_ ?_ ?_ ?_ ?_ hrun
  case refine_9 =>
    intro id s0 s1 sa s2 sp s3 al s4 cn s5 s6 _ _ _ _ _ _ _
    refine connectDeviceStep_elim api s6 _ conn id cn (fun r0 => r0 = run → _)
      ?_ ?_ ?_ ?_ ?_ ?_
    all_goals intros
    all_goals clear hrun
    all_goals intro hr
    all_goals subst hr
    all_goals simp_all [catchRuntimeError_trace, catchRuntimeError_ret,
      catchRuntimeError_deviceId, Call.isConnectDevice, ← strtok_r_newline]
    case refine_2 =>
      rename_i he
      intro _ _ h
      rw [← h] at he
      exact absurd he (by decide)
    case refine_4 =>
      rename_i hst
      exact strtok_r_ne_empty _ _ _ hst rfl
    case refine_5 =>
      rename_i hst _ _ _
      exact ⟨_, _, ⟨rfl, rfl⟩, hst⟩
    case refine_6 =>
      rename_i hst _ _
      exact ⟨_, _, ⟨rfl, rfl⟩, hst⟩
  case refine_8 =>
    intro id s0 s1 sa s2 sp s3 al s4 cn s5 r6 s6 _ _ _ _ _ _ _ he hr
    subst hr
    exfalso
    rw [catchRuntimeError_trace] at hx
    simp only [List.mem_append, List.mem_cons, Call.ziAPIConnectEx.injEq, List.mem_singleton,
      List.mem_nil_iff, reduceCtorEq, or_false, false_or] at hx
    rw [← hx.2.2.2.2.2] at he
    exact absurd he (by decide)
  all_goals intros
  all_goals clear hrun
  all_goals intro hr
  all_goals subst hr
  all_goals simp_all [catchRuntimeError_trace, isErrorCalls, isError, ZI_INFO_SUCCESS]

/-- C2, amended, at a device that is not connected and offers `1GbE` first. -/
theorem ziCreateAPISession_connectDevice_witness :
    ∃ rr, Call.ziAPIConnectDevice 1 "DEV1234" "1GbE" none rr ∈
      (ziCreateAPISession (scriptedAPI unconnectedScript) () 1 "dev1234"
        ZI_API_VERSION_4).trace :=
  (ziCreateAPISession_connectDevice (scriptedAPI unconnectedScript) () 1 "dev1234"
    ZI_API_VERSION_4 _ rfl "127.0.0.1" 8004 4 none "DEV1234" ZI_INFO_SUCCESS ""
    (by decide) (by decide)).2.2 rfl "1GbE\nUSB" "1GbE" (by decide) (by decide)

/-! ## C3: `ziApiServerVersionCheck` -/

/-- C3: when the four queries of `ziApiServerVersionCheck` succeed, it returns 1 if the
release version string of ziAPI equals the Data Server's `/zi/about/version` string and 0
otherwise. The result is a function of the two version strings alone: it is the same for
every API revision `apiRevision` and every server revision `serverRevision`. -/
theorem ziApiServerVersionCheck_result {σ : Type} (api : ZIAPI σ) (s : σ)
    (conn : ZIConnection) (apiRevision : Nat) (apiVersion : String)
    (serverRevision : ZIIntegerData) (serverVersion : String) (s0 s1 s2 s3 : σ)
    (h0 : api.ziAPIGetRevision s = (ZI_INFO_SUCCESS, apiRevision, s0))
    (h1 : api.ziAPIGetVersion s0 = (ZI_INFO_SUCCESS, apiVersion, s1))
    (h2 : api.ziAPIGetValueI s1 conn "/zi/about/revision" =
      (ZI_INFO_SUCCESS, serverRevision, s2))
    (h3 : api.ziAPIGetValueString s2 conn "/zi/about/version" 1024 =
      (ZI_INFO_SUCCESS, serverVersion, s3)) :
    (ziApiServerVersionCheck api s conn).ret =
      Except.ok (if apiVersion = serverVersion then 1 else 0) := by
  by_cases h : apiVersion = serverVersion
  · simp [ziApiServerVersionCheck, h0, h1, h2, h3, isError_success, h]
  · simp [ziApiServerVersionCheck, h0, h1, h2, h3, isError_success, h]

/-- C3 on a library that reports version "17.06" on both sides and differing
revisions. -/
theorem ziApiServerVersionCheck_result_witness :
    (ziApiServerVersionCheck
      { constAPI Unit ZI_INFO_SUCCESS with
        ziAPIGetRevision := fun s => (ZI_INFO_SUCCESS, 46746, s)
        ziAPIGetVersion := fun s => (ZI_INFO_SUCCESS, "17.06", s)
        ziAPIGetValueI := fun s _ _ => (ZI_INFO_SUCCESS, 45535, s)
        ziAPIGetValueString := fun s _ _ _ => (ZI_INFO_SUCCESS, "17.06", s) }
      () 1).ret = Except.ok (if "17.06" = "17.06" then 1 else 0) :=
  ziApiServerVersionCheck_result _ () 1 46746 "17.06" 45535 "17.06" () () () ()
    rfl rfl rfl rfl

/-! ## C4: what a synchronous set returns to the caller -/

/-- C4, as stated, fails: when the library answers the request 5.0 with the effective value
2.0, and when it answers with 3.0, `ziSyncSetValueD` hands its caller the very same
things (the `int` 0, nothing through a pointer, the same globals): the effective value is
not among them. -/
theorem ziSyncSetValueD_effective_value_not_returned :
    ((clampAPI ⟨0x4000000000000000⟩).ziAPISyncSetValueD () 1 "/dev574/pids/0/setpoint"
        ⟨0x4014000000000000⟩).2.1 ≠
      ((clampAPI ⟨0x4008000000000000⟩).ziAPISyncSetValueD () 1 "/dev574/pids/0/setpoint"
        ⟨0x4014000000000000⟩).2.1 ∧
    (ziSyncSetValueD (clampAPI ⟨0x4000000000000000⟩) () initialGlobals 1
        ⟨0x4014000000000000⟩).ret = 0 ∧
    (ziSyncSetValueD (clampAPI ⟨0x4008000000000000⟩) () initialGlobals 1
        ⟨0x4014000000000000⟩).ret = 0 ∧
    (ziSyncSetValueD (clampAPI ⟨0x4000000000000000⟩) () initialGlobals 1
        ⟨0x4014000000000000⟩).out =
      (ziSyncSetValueD (clampAPI ⟨0x4008000000000000⟩) () initialGlobals 1
        ⟨0x4014000000000000⟩).out ∧
    (ziSyncSetValueD (clampAPI ⟨0x4000000000000000⟩) () initialGlobals 1
        ⟨0x4014000000000000⟩).globals =
      (ziSyncSetValueD (clampAPI ⟨0x4008000000000000⟩) () initialGlobals 1
        ⟨0x4014000000000000⟩).globals := by
  decide

/-- C4, amended: for every requested value, a successful synchronous set through
`ziSyncSetValueD` (and likewise `ziTogglePID1`) returns the result code `ZI_INFO_SUCCESS`
to its caller and records it in `retVal`; the effective value that `ziAPISyncSetValueD`
wrote back only appears in the line printed to `stderr`, and `ziTogglePID1` drops the one
of `ziAPISyncSetValueI`. -/
theorem ziSyncSetValueD_returns_result_code {σ : Type} (api : ZIAPI σ) (s : σ)
    (g : Globals) (conn : ZIConnection) (value : ZIDoubleData) (valueI : ZIIntegerData) :
    ((api.ziAPISyncSetValueD s conn "/dev574/pids/0/setpoint" value).1 = ZI_INFO_SUCCESS →
      (ziSyncSetValueD api s g conn value).ret = ZI_INFO_SUCCESS ∧
      (ziSyncSetValueD api s g conn value).globals = { g with retVal := ZI_INFO_SUCCESS } ∧
      (ziSyncSetValueD api s g conn value).stderr = [StderrLine.supposedSet
        (api.ziAPISyncSetValueD s conn "/dev574/pids/0/setpoint" value).2.1]) ∧
    ((api.ziAPISyncSetValueI s conn "/dev574/pids/0/enable" valueI).1 = ZI_INFO_SUCCESS →
      (ziTogglePID1 api s g conn valueI).ret = ZI_INFO_SUCCESS ∧
      (ziTogglePID1 api s g conn valueI).globals = { g with retVal := ZI_INFO_SUCCESS } ∧
      (ziTogglePID1 api s g conn valueI).stderr = [StderrLine.supposedToggle]) := by
  constructor
  · intro h
    unfold ziSyncSetValueD
    rcases hq : api.ziAPISyncSetValueD s conn "/dev574/pids/0/setpoint" value with ⟨r, v1, s1⟩
    rw [hq] at h
    simp only at h
    subst h
    simp
  · intro h
    unfold ziTogglePID1
    rcases hq : api.ziAPISyncSetValueI s conn "/dev574/pids/0/enable" valueI with ⟨r, v1, s1⟩
    rw [hq] at h
    simp only at h
    subst h
    simp

/-- C4, amended, on the library that clamps to 2.0. -/
theorem ziSyncSetValueD_returns_result_code_witness :
    (ziSyncSetValueD (clampAPI ⟨0x4000000000000000⟩) () initialGlobals 1
        ⟨0x4014000000000000⟩).ret = ZI_INFO_SUCCESS ∧
    (ziTogglePID1 (clampAPI ⟨0x4000000000000000⟩) () initialGlobals 1 1).ret =
      ZI_INFO_SUCCESS :=
  ⟨((ziSyncSetValueD_returns_result_code (clampAPI ⟨0x4000000000000000⟩) () initialGlobals 1
      ⟨0x4014000000000000⟩ 1).1 rfl).1,
   ((ziSyncSetValueD_returns_result_code (clampAPI ⟨0x4000000000000000⟩) () initialGlobals 1
      ⟨0x4014000000000000⟩ 1).2 rfl).1⟩

/-! ## C5: the region of the value a wrapper returns -/

/-- C5, as stated, fails for `ziInit`: when `ziAPIInit` returns the error
`ZI_ERROR_MALLOC` or the warning `ZI_WARNING_OVERFLOW`, `ziInit` returns 1 in both cases,
an integer that lies in no region of `ZIResult_enum`. -/
theorem ziInit_return_not_in_region :
    (ziInit (constAPI Unit ZI_ERROR_MALLOC) () initialGlobals).ret = 1 ∧
    (ziInit (constAPI Unit ZI_WARNING_OVERFLOW) () initialGlobals).ret = 1 ∧
    regionOf ZI_ERROR_MALLOC = some Region.error ∧
    regionOf ZI_WARNING_OVERFLOW = some Region.warning ∧
    regionOf 1 = none := by
  decide

/-- C5, amended: for every result code returned by the underlying call, the integer that
`ziConnect`, `ziSetValueD`, `ziSyncSetValueD`, `ziTogglePID1` and `ziGetPID1` return lies
in the same region as that code; `ziInit` returns 0, in the info region, for
`ZI_INFO_SUCCESS` and 1, in no region, for every other code. -/
theorem wrapper_return_region {σ : Type} (api : ZIAPI σ) (s : σ) (g : Globals)
    (conn : ZIConnection) (value value0 : ZIDoubleData) (valueI : ZIIntegerData) :
    regionOf (ziConnect api s g conn).ret =
      regionOf (api.ziAPIConnect s conn serverAddress 8005).1 ∧
    regionOf (ziSetValueD api s g conn value).ret =
      regionOf (api.ziAPISetValueD s conn "/dev574/pids/0/setpoint" value).1 ∧
    regionOf (ziSyncSetValueD api s g conn value).ret =
      regionOf (api.ziAPISyncSetValueD s conn "/dev574/pids/0/setpoint" value).1 ∧
    regionOf (ziTogglePID1 api s g conn valueI).ret =
      regionOf (api.ziAPISyncSetValueI s conn "/dev574/pids/0/enable" valueI).1 ∧
    regionOf (ziGetPID1 api s g conn value0).ret =
      regionOf (api.ziAPIGetValueD s conn "/dev574/pids/0/setpoint").1 ∧
    (ziInit api s g).ret = (if (api.ziAPIInit s).1 = ZI_INFO_SUCCESS then 0 else 1) ∧
    regionOf 0 = some Region.info ∧ regionOf 1 = none := by
  refine ⟨?_, ?_, ?_, ?_, ?_, ?_, by decide, by decide⟩
  · unfold ziConnect
    rcases api.ziAPIConnect s conn serverAddress 8005 with ⟨r, s1⟩
    by_cases h : r = ZI_INFO_SUCCESS <;> simp [h]
  · unfold ziSetValueD
    rcases api.ziAPISetValueD s conn "/dev574/pids/0/setpoint" value with ⟨r, s1⟩
    by_cases h : r = ZI_INFO_SUCCESS <;> simp [h]
  · unfold ziSyncSetValueD
    rcases api.ziAPISyncSetValueD s conn "/dev574/pids/0/setpoint" value with ⟨r, v1, s1⟩
    by_cases h : r = ZI_INFO_SUCCESS <;> simp [h]
  · unfold ziTogglePID1
    rcases api.ziAPISyncSetValueI s conn "/dev574/pids/0/enable" valueI with ⟨r, v1, s1⟩
    by_cases h : r = ZI_INFO_SUCCESS <;> simp [h]
  · unfold ziGetPID1
    rcases api.ziAPIGetValueD s conn "/dev574/pids/0/setpoint" with ⟨r, w, s1⟩
    by_cases h : r = ZI_INFO_SUCCESS <;> simp [h]
  · unfold ziInit
    rcases api.ziAPIInit s with ⟨r, c, s1⟩
    by_cases h : r = ZI_INFO_SUCCESS
    · simp [h]; rfl
    · simp [h]

/-! ## C6: warnings in `ziCreateAPISession` -/

theorem onlyReportsAfterFailure_append (tr post : List Call)
    (h : ∀ c ∈ tr, c.failed = false) :
    onlyReportsAfterFailure (tr ++ post) = onlyReportsAfterFailure post := by
  induction tr with
  | nil => rfl
  | cons c tr ih =>
    have hc : c.failed = false := h c (List.mem_cons_self _ _)
    simp only [List.cons_append, onlyReportsAfterFailure, hc, Bool.false_eq_true, if_false]
    exact ih (fun d hd => h d (List.mem_cons_of_mem _ hd))

theorem onlyReportsAfterFailure_spec (l : List Call) (h : onlyReportsAfterFailure l = true)
    (pre : List Call) (c : Call) (post : List Call) (hl : l = pre ++ c :: post)
    (hc : c.failed = true) : ∀ d ∈ post, d.checkedResult = none := by
  induction pre generalizing l with
  | nil =>
    subst hl
    simp only [List.nil_append, onlyReportsAfterFailure, hc, if_true, List.all_eq_true,
      Option.isNone_iff_eq_none] at h
    exact h
  | cons p pre ih =>
    subst hl
    simp only [List.cons_append, onlyReportsAfterFailure] at h
    by_cases hp : p.failed = true
    · simp only [hp, if_true, List.all_eq_true, Option.isNone_iff_eq_none] at h
      have hcn : c.checkedResult = none := h c (by simp)
      simp [Call.failed, hcn] at hc
    · simp only [hp, if_false] at h
      exact ih _ h rfl

/-- In every run of `ziCreateAPISession`, a checked call that did not return
`ZI_INFO_SUCCESS` forces the return value 1 and is followed by reporting calls only. -/
theorem ziCreateAPISession_failure_invariant {σ : Type} (api : ZIAPI σ) (s : σ)
    (conn : ZIConnection) (deviceAddress : String) (maxSupportedApilevel : Int) :
    ((ziCreateAPISession api s conn deviceAddress maxSupportedApilevel).trace.any
        Call.failed = true →
      (ziCreateAPISession api s conn deviceAddress maxSupportedApilevel).ret = some 1) ∧
    onlyReportsAfterFailure
      (ziCreateAPISession api s conn deviceAddress maxSupportedApilevel).trace = true := by
  refine ziCreateAPISession_elim api s conn deviceAddress maxSupportedApilevel
    (fun run => (run.trace.any Call.failed = true → run.ret = some 1) ∧
      onlyReportsAfterFailure run.trace = true)
    ?_ ?_ ?_ ?_ ?_ ?_ ?_ ?_ ?_
  case refine_9 =>
    intro id s0 s1 sa s2 sp s3 al s4 cn s5 s6 _ _ _ _ _ _ _
    refine connectDeviceStep_elim api s6 _ conn id cn
      (fun run => (run.trace.any Call.failed = true → run.ret = some 1) ∧
        onlyReportsAfterFailure run.trace = true)
      ?_ ?_ ?_ ?_ ?_ ?_
    all_goals intros
    all_goals simp [catchRuntimeError_trace, catchRuntimeError_ret, Call.failed,
      Call.checkedResult, isError_success, onlyReportsAfterFailure, *]
  all_goals intros
  all_goals simp [catchRuntimeError_trace, catchRuntimeError_ret, Call.failed,
    Call.checkedResult, isError_success, onlyReportsAfterFailure, isErrorCalls, *]

/-- C6, as stated, fails: for a device that is not connected, `ZI_WARNING_OVERFLOW` from
`ziAPIConnectEx` makes `ziCreateAPISession` return 1 without calling
`ziAPIConnectDevice`, whereas after `ZI_INFO_SUCCESS` it calls `ziAPIConnectDevice` and
returns 0; and `ZI_WARNING_NOTFOUND` from the `serverport` query makes it return 1
without calling `ziAPIConnectEx`. -/
theorem ziCreateAPISession_warning_aborts :
    (ziCreateAPISession (scriptedAPI { unconnectedScript with connectEx := ZI_WARNING_OVERFLOW })
      () 1 "dev1234" ZI_API_VERSION_4).ret = some 1 ∧
    (ziCreateAPISession (scriptedAPI { unconnectedScript with connectEx := ZI_WARNING_OVERFLOW })
      () 1 "dev1234" ZI_API_VERSION_4).trace.any Call.isConnectDevice = false ∧
    (ziCreateAPISession (scriptedAPI unconnectedScript) () 1 "dev1234"
      ZI_API_VERSION_4).ret = some 0 ∧
    (ziCreateAPISession (scriptedAPI unconnectedScript) () 1 "dev1234"
      ZI_API_VERSION_4).trace.any Call.isConnectDevice = true ∧
    (ziCreateAPISession
      (scriptedAPI { scenarioScript with serverport := (ZI_WARNING_NOTFOUND, 0) })
      () 1 "dev1234" ZI_API_VERSION_4).ret = some 1 ∧
    (ziCreateAPISession
      (scriptedAPI { scenarioScript with serverport := (ZI_WARNING_NOTFOUND, 0) })
      () 1 "dev1234" ZI_API_VERSION_4).trace.any Call.isConnectEx = false ∧
    regionOf ZI_WARNING_OVERFLOW = some Region.warning ∧
    regionOf ZI_WARNING_NOTFOUND = some Region.warning := by
  decide

/-- C6, amended: in `ziCreateAPISession` every result code other than `ZI_INFO_SUCCESS`, a
warning included, that `ziAPIDiscoveryFind`, a discovery query, `ziAPIConnectEx` or
`ziAPIConnectDevice` returns aborts session creation: the function returns 1, and after
that call it only reports (error lookup, last error, log, `stderr`). -/
theorem ziCreateAPISession_aborts_on_non_success {σ : Type} (api : ZIAPI σ) (s : σ)
    (conn : ZIConnection) (deviceAddress : String) (maxSupportedApilevel : Int)
    (run : SessionRun σ)
    (hrun : ziCreateAPISession api s conn deviceAddress maxSupportedApilevel = run)
    (pre : List Call) (c : Call) (post : List Call) (r : ZIResult_enum)
    (htr : run.trace = pre ++ c :: post) (hr : c.checkedResult = some r)
    (hne : r ≠ ZI_INFO_SUCCESS) :
    run.ret = some 1 ∧ ∀ d ∈ post, d.checkedResult = none := by
  subst hrun
  have hinv := ziCreateAPISession_failure_invariant api s conn deviceAddress
    maxSupportedApilevel
  have hc : c.failed = true := by
    simp [Call.failed, hr, isError, hne]
  refine ⟨hinv.1 ?_, onlyReportsAfterFailure_spec _ hinv.2 pre c post htr hc⟩
  rw [htr]
  simp [hc]

/-- C6, amended, at `ZI_WARNING_OVERFLOW` from `ziAPIConnectEx`. -/
theorem ziCreateAPISession_aborts_on_non_success_witness :
    (ziCreateAPISession (scriptedAPI { unconnectedScript with connectEx := ZI_WARNING_OVERFLOW })
      () 1 "dev1234" ZI_API_VERSION_4).ret = some 1 ∧
    ∀ d ∈ [Call.ziAPIGetError ZI_WARNING_OVERFLOW "Error",
        Call.ziAPIGetLastError 1 1024 ZI_INFO_SUCCESS (some ""),
        Call.ziAPIWriteDebugLog 4 (Message.sessionError "Error" "")],
      d.checkedResult = none :=
  ziCreateAPISession_aborts_on_non_success
    (scriptedAPI { unconnectedScript with connectEx := ZI_WARNING_OVERFLOW })
    () 1 "dev1234" ZI_API_VERSION_4 _ rfl
    [Call.ziAPIDiscoveryFind 1 "dev1234" ZI_INFO_SUCCESS "DEV1234",
     Call.ziAPIDiscoveryGetValueI 1 "DEV1234" "discoverable" ZI_INFO_SUCCESS 1,
     Call.ziAPIWriteDebugLog 0 (Message.discovered "DEV1234"),
     Call.ziAPIDiscoveryGetValueS 1 "DEV1234" "serveraddress" ZI_INFO_SUCCESS "127.0.0.1",
     Call.ziAPIDiscoveryGetValueI 1 "DEV1234" "serverport" ZI_INFO_SUCCESS 8004,
     Call.ziAPIDiscoveryGetValueI 1 "DEV1234" "apilevel" ZI_INFO_SUCCESS 4,
     Call.ziAPIDiscoveryGetValueS 1 "DEV1234" "connected" ZI_INFO_SUCCESS "",
     Call.ziAPIWriteDebugLog 0 (Message.creatingSession "127.0.0.1" 8004 4)]
    (Call.ziAPIConnectEx 1 "127.0.0.1" 8004 4 none ZI_WARNING_OVERFLOW)
    [Call.ziAPIGetError ZI_WARNING_OVERFLOW "Error",
     Call.ziAPIGetLastError 1 1024 ZI_INFO_SUCCESS (some ""),
     Call.ziAPIWriteDebugLog 4 (Message.sessionError "Error" "")]
    ZI_WARNING_OVERFLOW (by decide) rfl (by decide)

/-! ## C7: the session after a failed `ziCreateAPISession` -/

/-- C8, as stated, fails: after `ziConnect` succeeded on connection 1, a failing
`ziConnect` on connection 2 replaces the result recorded for connection 1, because both
calls write the one file-scope `retVal`. -/
theorem ziConnect_clobbers_other_connection :
    (ziConnect secondFailsAPI () initialGlobals 1).globals.retVal = ZI_INFO_SUCCESS ∧
    (ziConnect secondFailsAPI (ziConnect secondFailsAPI () initialGlobals 1).state
      (ziConnect secondFailsAPI () initialGlobals 1).globals 2).globals.retVal =
      ZI_ERROR_SOCKET_CONNECT ∧
    (ziConnect secondFailsAPI (ziConnect secondFailsAPI () initialGlobals 1).state
      (ziConnect secondFailsAPI () initialGlobals 1).globals 2).globals.retVal ≠
      (ziConnect secondFailsAPI () initialGlobals 1).globals.retVal := by
  decide

/-- C8, amended: the result state recorded by the wrappers of `setpointPID1.c` is one
process-global `retVal`, shared by all connections: after a wrapper call on any connection
it holds the result code of that call, whatever it held before. -/
theorem wrapper_records_in_global_retVal {σ : Type} (api : ZIAPI σ) (s : σ) (g : Globals)
    (conn : ZIConnection) (value value0 : ZIDoubleData) (valueI : ZIIntegerData) :
    (ziInit api s g).globals.retVal = (api.ziAPIInit s).1 ∧
    (ziConnect api s g conn).globals.retVal = (api.ziAPIConnect s conn serverAddress 8005).1 ∧
    (ziSetValueD api s g conn value).globals.retVal =
      (api.ziAPISetValueD s conn "/dev574/pids/0/setpoint" value).1 ∧
    (ziSyncSetValueD api s g conn value).globals.retVal =
      (api.ziAPISyncSetValueD s conn "/dev574/pids/0/setpoint" value).1 ∧
    (ziTogglePID1 api s g conn valueI).globals.retVal =
      (api.ziAPISyncSetValueI s conn "/dev574/pids/0/enable" valueI).1 ∧
    (ziGetPID1 api s g conn value0).globals.retVal =
      (api.ziAPIGetValueD s conn "/dev574/pids/0/setpoint").1 := by
  refine ⟨?_, ?_, ?_, ?_, ?_, ?_⟩
  · unfold ziInit
    rcases api.ziAPIInit s with ⟨r, c, s1⟩
    by_cases h : r = ZI_INFO_SUCCESS <;> simp [h]
  · unfold ziConnect
    rcases api.ziAPIConnect s conn serverAddress 8005 with ⟨r, s1⟩
    by_cases h : r = ZI_INFO_SUCCESS <;> simp [h]
  · unfold ziSetValueD
    rcases api.ziAPISetValueD s conn "/dev574/pids/0/setpoint" value with ⟨r, s1⟩
    by_cases h : r = ZI_INFO_SUCCESS <;> simp [h]
  · unfold ziSyncSetValueD
    rcases api.ziAPISyncSetValueD s conn "/dev574/pids/0/setpoint" value with ⟨r, v1, s1⟩
    by_cases h : r = ZI_INFO_SUCCESS <;> simp [h]
  · unfold ziTogglePID1
    rcases api.ziAPISyncSetValueI s conn "/dev574/pids/0/enable" valueI with ⟨r, v1, s1⟩
    by_cases h : r = ZI_INFO_SUCCESS <;> simp [h]
  · unfold ziGetPID1
    rcases api.ziAPIGetValueD s conn "/dev574/pids/0/setpoint" with ⟨r, w, s1⟩
    by_cases h : r = ZI_INFO_SUCCESS <;> simp [h]

/-! ## C9: synchronous set, then get -/

/-- C9: on a Data Server that behaves as a store (a get that follows a synchronous set
of the same path reads the effective value the set wrote back), for every value `v` a
successful `ziSyncSetValueD(conn, v)` followed immediately by a successful
`ziGetPID1(conn, &out)` yields `out` equal to the effective value of the set call: the two
wrappers address the same node path. -/
theorem ziSyncSetValueD_then_ziGetPID1 {σ : Type} (api : ZIAPI σ) (s : σ) (g : Globals)
    (conn : ZIConnection) (v out0 : ZIDoubleData)
    (hstore : ∀ (t : σ) (path : String) (x : ZIDoubleData),
      (api.ziAPISyncSetValueD t conn path x).1 = ZI_INFO_SUCCESS →
      (api.ziAPIGetValueD (api.ziAPISyncSetValueD t conn path x).2.2 conn path).1 =
        ZI_INFO_SUCCESS →
      (api.ziAPIGetValueD (api.ziAPISyncSetValueD t conn path x).2.2 conn path).2.1 =
        some (api.ziAPISyncSetValueD t conn path x).2.1)
    (hset : (ziSyncSetValueD api s g conn v).ret = ZI_INFO_SUCCESS)
    (hget : (ziGetPID1 api (ziSyncSetValueD api s g conn v).state
      (ziSyncSetValueD api s g conn v).globals conn out0).ret = ZI_INFO_SUCCESS) :
    (ziGetPID1 api (ziSyncSetValueD api s g conn v).state
      (ziSyncSetValueD api s g conn v).globals conn out0).out =
      (api.ziAPISyncSetValueD s conn "/dev574/pids/0/setpoint" v).2.1 := by
  have hs := hstore s "/dev574/pids/0/setpoint" v
  have hstate : (ziSyncSetValueD api s g conn v).state =
      (api.ziAPISyncSetValueD s conn "/dev574/pids/0/setpoint" v).2.2 := by
    unfold ziSyncSetValueD
    rcases api.ziAPISyncSetValueD s conn "/dev574/pids/0/setpoint" v with ⟨r, v1, s1⟩
    by_cases h : r = ZI_INFO_SUCCESS <;> simp [h]
  have hsetr : (ziSyncSetValueD api s g conn v).ret =
      (api.ziAPISyncSetValueD s conn "/dev574/pids/0/setpoint" v).1 := by
    unfold ziSyncSetValueD
    rcases api.ziAPISyncSetValueD s conn "/dev574/pids/0/setpoint" v with ⟨r, v1, s1⟩
    by_cases h : r = ZI_INFO_SUCCESS <;> simp [h]
  have hgetr : ∀ (t : σ) (g1 : Globals),
      (ziGetPID1 api t g1 conn out0).ret =
        (api.ziAPIGetValueD t conn "/dev574/pids/0/setpoint").1 ∧
      (ziGetPID1 api t g1 conn out0).out =
        (api.ziAPIGetValueD t conn "/dev574/pids/0/setpoint").2.1.getD out0 := by
    intro t g1
    unfold ziGetPID1
    rcases api.ziAPIGetValueD t conn "/dev574/pids/0/setpoint" with ⟨r, w, s1⟩
    by_cases h : r = ZI_INFO_SUCCESS <;> simp [h]
  rw [hsetr] at hset
  rw [(hgetr _ _).1, hstate] at hget
  rw [(hgetr _ _).2, hstate, hs hset hget]
  rfl

/-- C9 on the store model of the Data Server, with a node that clamps to 2.0: the
request 5.0 is read back as 2.0. -/
theorem ziSyncSetValueD_then_ziGetPID1_witness :
    (ziGetPID1 (storeAPI (fun _ _ => ⟨0x4000000000000000⟩))
      (ziSyncSetValueD (storeAPI (fun _ _ => ⟨0x4000000000000000⟩)) (fun _ => ⟨0⟩)
        initialGlobals 1 ⟨0x4014000000000000⟩).state
      (ziSyncSetValueD (storeAPI (fun _ _ => ⟨0x4000000000000000⟩)) (fun _ => ⟨0⟩)
        initialGlobals 1 ⟨0x4014000000000000⟩).globals 1 ⟨0⟩).out =
      ((storeAPI (fun _ _ => ⟨0x4000000000000000⟩)).ziAPISyncSetValueD (fun _ => ⟨0⟩) 1
        "/dev574/pids/0/setpoint" ⟨0x4014000000000000⟩).2.1 :=
  ziSyncSetValueD_then_ziGetPID1 (storeAPI (fun _ _ => ⟨0x4000000000000000⟩))
    (fun _ => ⟨0⟩) initialGlobals 1 ⟨0x4014000000000000⟩ ⟨0⟩
    (fun t path x _ _ => by simp [storeAPI]) rfl rfl

/-! ## C10: the discovery and connect scenario -/

/-- C10: if discovery resolves the device address, reports `discoverable` = 1,
`serveraddress` = "127.0.0.1", `serverport` = 8004, `apilevel` = 4 and a non-empty
`connected` property, and `maxSupportedApilevel` is `ZI_API_VERSION_4`, then
`ziCreateAPISession` calls `ziAPIConnectEx` with host "127.0.0.1", port 8004, API level 4
and a `NULL` implementation, makes no other `ziAPIConnectEx` call, and returns 0 when that
call succeeds. -/
theorem ziCreateAPISession_scenario {σ : Type} (api : ZIAPI σ) (s : σ)
    (conn : ZIConnection) (deviceAddress deviceId connected : String)
    (s0 s1 s2 s3 s4 s5 s6 : σ) (r6 : ZIResult_enum)
    (h0 : api.ziAPIDiscoveryFind s conn deviceAddress = (ZI_INFO_SUCCESS, deviceId, s0))
    (h1 : api.ziAPIDiscoveryGetValueI s0 conn deviceId "discoverable" =
      (ZI_INFO_SUCCESS, 1, s1))
    (h2 : api.ziAPIDiscoveryGetValueS s1 conn deviceId "serveraddress" =
      (ZI_INFO_SUCCESS, "127.0.0.1", s2))
    (h3 : api.ziAPIDiscoveryGetValueI s2 conn deviceId "serverport" =
      (ZI_INFO_SUCCESS, 8004, s3))
    (h4 : api.ziAPIDiscoveryGetValueI s3 conn deviceId "apilevel" = (ZI_INFO_SUCCESS, 4, s4))
    (h5 : api.ziAPIDiscoveryGetValueS s4 conn deviceId "connected" =
      (ZI_INFO_SUCCESS, connected, s5))
    (hconnected : connected ≠ "")
    (h6 : api.ziAPIConnectEx s5 conn "127.0.0.1" 8004 4 none = (r6, s6)) :
    Call.ziAPIConnectEx conn "127.0.0.1" 8004 4 none r6 ∈
      (ziCreateAPISession api s conn deviceAddress ZI_API_VERSION_4).trace ∧
    (∀ c ∈ (ziCreateAPISession api s conn deviceAddress ZI_API_VERSION_4).trace,
      c.isConnectEx = true → c = Call.ziAPIConnectEx conn "127.0.0.1" 8004 4 none r6) ∧
    (r6 = ZI_INFO_SUCCESS →
      (ziCreateAPISession api s conn deviceAddress ZI_API_VERSION_4).ret = some 0) := by
  have hport : toUInt16 8004 = 8004 := by decide
  have hlevel : toEnum32 (apilevelConnection ZI_API_VERSION_4 4) = 4 := by decide
  have hrun : ziCreateAPISession api s conn deviceAddress ZI_API_VERSION_4 =
      if isError r6 then
        catchRuntimeError api s6
          [Call.ziAPIDiscoveryFind conn deviceAddress ZI_INFO_SUCCESS deviceId,
           Call.ziAPIDiscoveryGetValueI conn deviceId "discoverable" ZI_INFO_SUCCESS 1,
           Call.ziAPIWriteDebugLog 0 (Message.discovered deviceId),
           Call.ziAPIDiscoveryGetValueS conn deviceId "serveraddress" ZI_INFO_SUCCESS
             "127.0.0.1",
           Call.ziAPIDiscoveryGetValueI conn deviceId "serverport" ZI_INFO_SUCCESS 8004,
           Call.ziAPIDiscoveryGetValueI conn deviceId "apilevel" ZI_INFO_SUCCESS 4,
           Call.ziAPIDiscoveryGetValueS conn deviceId "connected" ZI_INFO_SUCCESS connected,
           Call.ziAPIWriteDebugLog 0 (Message.creatingSession "127.0.0.1" 8004 4),
           Call.ziAPIConnectEx conn "127.0.0.1" 8004 4 none r6] conn deviceId r6
      else
        { state := s6
          trace :=
            [Call.ziAPIDiscoveryFind conn deviceAddress ZI_INFO_SUCCESS deviceId,
             Call.ziAPIDiscoveryGetValueI conn deviceId "discoverable" ZI_INFO_SUCCESS 1,
             Call.ziAPIWriteDebugLog 0 (Message.discovered deviceId),
             Call.ziAPIDiscoveryGetValueS conn deviceId "serveraddress" ZI_INFO_SUCCESS
               "127.0.0.1",
             Call.ziAPIDiscoveryGetValueI conn deviceId "serverport" ZI_INFO_SUCCESS 8004,
             Call.ziAPIDiscoveryGetValueI conn deviceId "apilevel" ZI_INFO_SUCCESS 4,
             Call.ziAPIDiscoveryGetValueS conn deviceId "connected" ZI_INFO_SUCCESS connected,
             Call.ziAPIWriteDebugLog 0 (Message.creatingSession "127.0.0.1" 8004 4),
             Call.ziAPIConnectEx conn "127.0.0.1" 8004 4 none r6,
             Call.ziAPIWriteDebugLog 0 (Message.alreadyConnected connected)]
          ret := some 0
          deviceId := deviceId } := by
    simp [ziCreateAPISession, h0, h1, h2, h3, h4, h5, h6, hport, hlevel, isError_success,
      isErrorCalls_success, connectDeviceStep, hconnected]
  rw [hrun]
  by_cases he : isError r6 = true
  · rw [if_pos he, catchRuntimeError_trace]
    refine ⟨by simp, ?_, ?_⟩
    · intro c hc hcx
      simp only [List.mem_append, List.mem_cons, List.mem_singleton, List.mem_nil_iff,
        or_false] at hc
      rcases hc with (rfl | rfl | rfl | rfl | rfl | rfl | rfl | rfl | rfl) | rfl | rfl | rfl
      all_goals first | rfl | exact absurd hcx (by simp [Call.isConnectEx])
    · intro h
      rw [h] at he
      exact absurd he (by decide)
  · rw [if_neg he]
    refine ⟨by simp, ?_, fun _ => rfl⟩
    intro c hc hcx
    simp only [List.mem_cons, List.mem_singleton, List.mem_nil_iff, or_false] at hc
    rcases hc with rfl | rfl | rfl | rfl | rfl | rfl | rfl | rfl | rfl | rfl
    all_goals first | rfl | exact absurd hcx (by simp [Call.isConnectEx])

/-- C10 on the scripted library of the scenario, for device address "dev1234". -/
theorem ziCreateAPISession_scenario_witness :
    Call.ziAPIConnectEx 1 "127.0.0.1" 8004 4 none ZI_INFO_SUCCESS ∈
      (ziCreateAPISession (scriptedAPI scenarioScript) () 1 "dev1234"
        ZI_API_VERSION_4).trace ∧
    (ziCreateAPISession (scriptedAPI scenarioScript) () 1 "dev1234"
      ZI_API_VERSION_4).ret = some 0 :=
  ⟨(ziCreateAPISession_scenario (scriptedAPI scenarioScript) () 1 "dev1234" "DEV1234" "1GbE"
      () () () () () () () ZI_INFO_SUCCESS rfl rfl rfl rfl rfl rfl (by decide) rfl).1,
   (ziCreateAPISession_scenario (scriptedAPI scenarioScript) () 1 "dev1234" "DEV1234" "1GbE"
      () () () () () () () ZI_INFO_SUCCESS rfl rfl rfl rfl rfl rfl (by decide) rfl).2.2 rfl⟩

/-! ## C11: the timeout that `ziAPIPollData` forwards -/

/-- C11, as stated, fails: the negative timeout -2 is forwarded as 4294967294
milliseconds, not as the wait-forever value 4294967295 that -1 is forwarded as. -/
theorem ziAPIPollData_negative_not_forever :
    ziAPIPollData (fun (_ : Unit) _ _ t => t) () 1 0 (-1) = waitForever ∧
    ziAPIPollData (fun (_ : Unit) _ _ t => t) () 1 0 (-2) = 4294967294 ∧
    ziAPIPollData (fun (_ : Unit) _ _ t => t) () 1 0 (-2) ≠
      ziAPIPollData (fun (_ : Unit) _ _ t => t) () 1 0 (-1) := by
  decide

/-- C11, amended: `ziAPIPollData(conn, ev, timeOut)` forwards its `int` timeout to
`ziAPIPollDataEx` converted to `uint32_t`: -1 is forwarded as the wait-forever timeout,
every other negative `timeOut` as the finite timeout of `2^32 + timeOut` milliseconds, 0 as
0 (return immediately), and every positive `timeOut` as the same number of
milliseconds. -/
theorem ziAPIPollData_timeout {σ ρ : Type}
    (ziAPIPollDataEx : σ → ZIConnection → Nat → Int → ρ) (s : σ) (conn : ZIConnection)
    (ev : Nat) (timeOut : Int) (h : isInt32 timeOut) :
    (timeOut = -1 →
      ziAPIPollData ziAPIPollDataEx s conn ev timeOut = ziAPIPollDataEx s conn ev waitForever) ∧
    (timeOut < -1 →
      ziAPIPollData ziAPIPollDataEx s conn ev timeOut =
        ziAPIPollDataEx s conn ev (4294967296 + timeOut) ∧
      4294967296 + timeOut ≠ waitForever ∧ 0 < 4294967296 + timeOut) ∧
    (timeOut = 0 →
      ziAPIPollData ziAPIPollDataEx s conn ev timeOut = ziAPIPollDataEx s conn ev 0) ∧
    (0 < timeOut →
      ziAPIPollData ziAPIPollDataEx s conn ev timeOut =
        ziAPIPollDataEx s conn ev timeOut) := by
  unfold isInt32 at h
  unfold ziAPIPollData toUInt32 waitForever
  refine ⟨?_, ?_, ?_, ?_⟩
  · intro ht
    subst ht
    rfl
  · intro ht
    have e : timeOut % 4294967296 = 4294967296 + timeOut := by omega
    rw [e]
    exact ⟨rfl, by omega, by omega⟩
  · intro ht
    subst ht
    rfl
  · intro ht
    have e : timeOut % 4294967296 = timeOut := by omega
    rw [e]

/-- C11, amended, at the timeout -2. -/
theorem ziAPIPollData_timeout_witness :
    ziAPIPollData (fun (_ : Unit) _ _ t => t) () 1 0 (-2) = 4294967296 + (-2) :=
  ((ziAPIPollData_timeout (fun (_ : Unit) _ _ t => t) () 1 0 (-2) (by decide)).2.1
    (by decide)).1

/-! ## C12: tags of the asynchronous commands -/

/-- C12, as stated, fails: `ziAPIAsyncSetDoubleData`, which `ZIAsyncReply.command`
enumerates as command 1, is declared without a `ZIAsyncTag` parameter. -/
theorem ziAPIAsyncSetDoubleData_takes_no_tag :
    (1, "ziAPIAsyncSetDoubleData") ∈ asyncReplyCommands ∧
    { name := "ziAPIAsyncSetDoubleData",
      params := [("ZIConnection", "conn"), ("const char*", "path"),
        ("ZIDoubleData", "value")] } ∈ asyncDecls ∧
    commandTakesTag "ziAPIAsyncSetDoubleData" = false := by
  decide

/-- C12, amended: of the six asynchronous commands that `ZIAsyncReply.command`
enumerates, `ziAPIAsyncSubscribe`, `ziAPIAsyncUnSubscribe` and
`ziAPIAsyncGetValueAsPollData` take a caller-supplied `ZIAsyncTag` argument, and
`ziAPIAsyncSetDoubleData`, `ziAPIAsyncSetIntegerData` and `ziAPIAsyncSetByteArray` take
none; each of the six is declared exactly once. -/
theorem async_commands_with_tag :
    asyncReplyCommands.map (fun c => (c.2, commandTakesTag c.2)) =
      [("ziAPIAsyncSetDoubleData", false), ("ziAPIAsyncSetIntegerData", false),
       ("ziAPIAsyncSetByteArray", false), ("ziAPIAsyncSubscribe", true),
       ("ziAPIAsyncUnSubscribe", true), ("ziAPIAsyncGetValueAsPollData", true)] ∧
    ∀ c ∈ asyncReplyCommands, (asyncDecls.filter (fun d => d.name = c.2)).length = 1 := by
  decide

/-! ## C13: the regions of `ZIResult_enum` -/

/-- C13: every named result code of `ZIResult_enum` lies in exactly one of the half-open
regions `[ZI_INFO_BASE, ZI_INFO_MAX)`, `[ZI_WARNING_BASE, ZI_WARNING_MAX)`,
`[ZI_ERROR_BASE, ZI_ERROR_MAX)`, namely the one its name starts with, and the
auto-incremented bounds are `ZI_INFO_MAX = 0x0001`, `ZI_WARNING_MAX = 0x4005` and
`ZI_ERROR_MAX = 0x801F`. -/
theorem resultCodes_in_named_region :
    (∀ e ∈ resultCodes,
      (inRegion Region.info e.2.1 = true ↔ e.2.2 = Region.info) ∧
      (inRegion Region.warning e.2.1 = true ↔ e.2.2 = Region.warning) ∧
      (inRegion Region.error e.2.1 = true ↔ e.2.2 = Region.error) ∧
      regionOf e.2.1 = some e.2.2 ∧
      (regionStem e.2.2).toList.isPrefixOf e.1.toList = true) ∧
    resultCodes.length = 37 ∧
    ZI_INFO_MAX = 0x0001 ∧ ZI_WARNING_MAX = 0x4005 ∧ ZI_ERROR_MAX = 0x801F := by
  decide

/-! ## C14: value types and the members of `ZIEvent.value` -/

/-- C14: the 25 current enumerators of `ZIValueType_enum` have pairwise distinct values
(and names), each of the 24 types other than `ZI_VALUE_TYPE_NONE` is documented for
exactly one typed member of the union `ZIEvent.value`, and each of the 24 typed members is
documented for exactly one type, which is one of these enumerators. -/
theorem valueType_determines_member :
    valueTypes.length = 25 ∧
    (valueTypes.map (fun t => t.2)).Nodup ∧
    (valueTypes.map (fun t => t.1)).Nodup ∧
    (∀ t ∈ valueTypes, t.1 ≠ "ZI_VALUE_TYPE_NONE" → (membersFor t.1).length = 1) ∧
    membersFor "ZI_VALUE_TYPE_NONE" = [] ∧
    eventValueMembers.length = 24 ∧
    (∀ m ∈ eventValueMembers, (typesFor m.1).length = 1 ∧
      m.2 ∈ valueTypes.map (fun t => t.1)) := by
  decide

/-! ## C15: the flags of `ziAPIListNodes` -/

theorem FlagSet.contains_iff_and (fs : FlagSet) (f : ListNodesFlag) :
    fs.contains f = true ↔ fs.combine &&& f.value ≠ 0 := by
  rcases fs with ⟨b0, b1, b2, b3, b4, b5, b6, b7⟩
  revert b0 b1 b2 b3 b4 b5 b6 b7
  cases f <;> decide

theorem FlagSet.ext_contains (a b : FlagSet) (h : ∀ f, a.contains f = b.contains f) :
    a = b := by
  rcases a with ⟨a0, a1, a2, a3, a4, a5, a6, a7⟩
  rcases b with ⟨b0, b1, b2, b3, b4, b5, b6, b7⟩
  have h0 := h ListNodesFlag.recursive
  have h1 := h ListNodesFlag.absolute
  have h2 := h ListNodesFlag.leafsOnly
  have h3 := h ListNodesFlag.settingsOnly
  have h4 := h ListNodesFlag.streamingOnly
  have h5 := h ListNodesFlag.subscribedOnly
  have h6 := h ListNodesFlag.baseChannel
  have h7 := h ListNodesFlag.getOnly
  simp only [FlagSet.contains] at h0 h1 h2 h3 h4 h5 h6 h7
  subst h0 h1 h2 h3 h4 h5 h6 h7
  rfl

/-- C15: the eight non-zero `ZIListNodes_enum` flags are pairwise distinct single bits
whose OR is `0xFF`, and `ZI_LIST_NODES_NONE` is 0; hence two sets of flags have equal
bitwise-OR combinations if and only if they are equal, and a flag `f` belongs to a
combination exactly when `flags & f` is non-zero. -/
theorem listNodes_flags_combine (a b : FlagSet) (f : ListNodesFlag) :
    (∀ g ∈ allListNodesFlags, isSingleBit g.value = true) ∧
    (allListNodesFlags.map ListNodesFlag.value).Nodup ∧
    (∀ g : ListNodesFlag, g ∈ allListNodesFlags) ∧
    (allListNodesFlags.map ListNodesFlag.value).foldl (fun x y => x ||| y) 0 = 0xFF ∧
    ZI_LIST_NODES_NONE = 0 ∧
    (a.combine = b.combine ↔ a = b) ∧
    (a.contains f = true ↔ a.combine &&& f.value ≠ 0) := by
  refine ⟨by decide, by decide, fun g => by cases g <;> decide, by decide, rfl, ?_,
    FlagSet.contains_iff_and a f⟩
  constructor
  · intro h
    apply FlagSet.ext_contains
    intro g
    have ha := FlagSet.contains_iff_and a g
    have hb := FlagSet.contains_iff_and b g
    rw [h] at ha
    cases hca : a.contains g <;> cases hcb : b.contains g <;> simp_all
  · intro h
    rw [h]

/-! ## C16: the 8-byte borders of `ZIChunkHeader` -/

/-- C16 fails on the code: in `struct ZIChunkHeader`, laid out with natural alignment, the
member `color` directly follows a `--- 8 bytes border` comment but starts at byte offset
92: `name[MAX_NAME_LEN]` ends at 88 and the single `uint32_t groupIndex` fills only half of
the next 8 bytes. The members `gridRows`, `gridMode` and `gridDirection`, also marked,
start at 100, 108 and 116. -/
theorem ZIChunkHeader_border_misaligned :
    offsetOf ZIChunkHeader_fields "name" = some 56 ∧
    offsetOf ZIChunkHeader_fields "groupIndex" = some 88 ∧
    offsetOf ZIChunkHeader_fields "color" = some 92 ∧
    (Field.scalar "uint32_t" "color").afterBorder ∈ ZIChunkHeader_fields ∧
    92 % 8 = 4 ∧
    bordersAligned ZIChunkHeader_fields = false ∧
    ((layout ZIChunkHeader_fields).filter (fun p => p.1.border && p.2 % 8 != 0)).map
      (fun p => (p.1.name, p.2)) =
      [("color", 92), ("gridRows", 100), ("gridMode", 108), ("gridDirection", 116)] := by
  decide

/-! ## C17: the 8-byte borders of the event structures -/

/-- C17: in `ZIEvent` (for 4-byte and for 8-byte pointers), `ZIScopeWave`, `ZIScopeWaveEx`,
`ZIVectorData` and `ZIAsyncReply`, laid out with natural alignment, every member that
directly follows a `--- 8 bytes border` comment starts at a multiple of 8 and no padding is
inserted between members; the trailing data members start at offsets 272 (`ZIEvent.data`),
88 (`ZIScopeWave.data`), 376 (`ZIScopeWaveEx.data`) and 296 (`ZIVectorData.data`), and
`ZIAsyncReply` occupies 24 bytes. -/
theorem event_structs_borders_aligned :
    (bordersAligned (ZIEvent_fields 4) = true ∧ noPadding (ZIEvent_fields 4) = true ∧
      offsetOf (ZIEvent_fields 4) "data" = some 272) ∧
    (bordersAligned (ZIEvent_fields 8) = true ∧ noPadding (ZIEvent_fields 8) = true ∧
      offsetOf (ZIEvent_fields 8) "data" = some 272) ∧
    (bordersAligned ZIScopeWave_fields = true ∧ noPadding ZIScopeWave_fields = true ∧
      offsetOf ZIScopeWave_fields "data" = some 88) ∧
    (bordersAligned ZIScopeWaveEx_fields = true ∧ noPadding ZIScopeWaveEx_fields = true ∧
      offsetOf ZIScopeWaveEx_fields "data" = some 376) ∧
    (bordersAligned ZIVectorData_fields = true ∧ noPadding ZIVectorData_fields = true ∧
      offsetOf ZIVectorData_fields "data" = some 296) ∧
    (bordersAligned ZIAsyncReply_fields = true ∧ noPadding ZIAsyncReply_fields = true ∧
      structSize ZIAsyncReply_fields = 24) := by
  decide

/-! ## C18: the FFT window codes and their mask -/

/-- C18 fails on the code: the mask `ZI_CHUNK_HEADER_MODULE_FLAGS_WINDOW` is `0x3`, so of
the seven window codes its comment documents only 0 to 3 survive masking; code 4
(Exponential) is masked to 0 (Rectangular), 5 to 1 and 6 to 2. -/
theorem fft_window_codes_not_representable :
    (4, "Exponential") ∈ fftWindowCodes ∧
    4 &&& ZI_CHUNK_HEADER_MODULE_FLAGS_WINDOW = 0 ∧
    0 &&& ZI_CHUNK_HEADER_MODULE_FLAGS_WINDOW = 0 ∧
    fftWindowCodes.map (fun c => (c.1, c.1 &&& ZI_CHUNK_HEADER_MODULE_FLAGS_WINDOW)) =
      [(0, 0), (1, 1), (2, 2), (3, 3), (4, 0), (5, 1), (6, 2)] := by
  decide

/-! ## C19: `ZIScopeWaveEx` extends `ZIScopeWave` -/

/-- C19: every member of `ZIScopeWave` from `timeStamp` through `sampleCount` occurs in
`ZIScopeWaveEx` with the same name, type, length and byte offset, these members fill the
first 88 bytes, and the declaration of `ZIScopeWaveEx` is that of `ZIScopeWave` with the
members `channelOffset`, `totalSegments`, `reserved1` and `reserved2` added after
`sampleCount`, before the sample data. -/
theorem ZIScopeWaveEx_extends_ZIScopeWave :
    ZIScopeWave_header.length = 20 ∧
    ((layout ZIScopeWaveEx_fields).take 20).map memberShape =
      ((layout ZIScopeWave_fields).take 20).map memberShape ∧
    ((layout ZIScopeWave_fields).take 20).map (fun p => p.1.name) =
      ZIScopeWave_header.map (fun f => f.name) ∧
    ((layout ZIScopeWave_header).map (fun p => p.2 + p.1.size)).foldl max 0 = 88 ∧
    ZIScopeWaveEx_fields = ZIScopeWave_header ++
      [(Field.array "double" "channelOffset" 4).afterBorder,
       (Field.scalar "uint32_t" "totalSegments").afterBorder,
       Field.scalar "uint32_t" "reserved1",
       (Field.array "uint64_t" "reserved2" 31).afterBorder] ++ [scopeWaveData.afterBorder] ∧
    ZIScopeWave_fields = ZIScopeWave_header ++ [scopeWaveData.afterBorder] ∧
    offsetOf ZIScopeWave_fields "data" = some 88 ∧
    offsetOf ZIScopeWaveEx_fields "channelOffset" = some 88 := by
  decide

/-! ## C20: the deprecated structures and wrappers -/

/-- C20: with a 32-bit `unsigned int`, each deprecated structure has the same member sizes,
member offsets and total size as the current structure its wrapper casts it to
(`DemodSample` and `ZIDemodSample`, `AuxInSample` and `ZIAuxInSample`, `DIOSample` and
`ZIDIOSample`, `ziEvent` and `ZIEvent`, the last for 4-byte and for 8-byte pointers); and
`ziAPIGetValueS`, `ziAPIGetValueDIO`, `ziAPIGetValueAuxIn` and `ziAPIPollData` return
exactly the result of the function they forward to, called on the same address. -/
theorem deprecated_structs_and_wrappers {σ ρ : Type}
    (ziAPIGetDemodSample ziAPIGetDIOSample ziAPIGetAuxInSample :
      σ → ZIConnection → String → Nat → ρ)
    (ziAPIPollDataEx : σ → ZIConnection → Nat → Int → ρ)
    (s : σ) (conn : ZIConnection) (path : String) (value ev : Nat) (timeOut : Int) :
    scalarSize "unsigned int" = 4 ∧
    memoryShape DemodSample_fields = memoryShape ZIDemodSample_fields ∧
    memoryShape AuxInSample_fields = memoryShape ZIAuxInSample_fields ∧
    memoryShape DIOSample_fields = memoryShape ZIDIOSample_fields ∧
    memoryShape (ziEvent_fields 4) = memoryShape (ZIEvent_fields 4) ∧
    memoryShape (ziEvent_fields 8) = memoryShape (ZIEvent_fields 8) ∧
    ziAPIGetValueS ziAPIGetDemodSample s conn path value =
      ziAPIGetDemodSample s conn path value ∧
    ( ziAPIGetValueDIO ziAPIGetDIOSample s conn path value) =
      ziAPIGetDIOSample s conn path value ∧
    ziAPIGetValueAuxIn ziAPIGetAuxInSample s conn path value =
      ziAPIGetAuxInSample s conn path value ∧
    ziAPIPollData ziAPIPollDataEx s conn ev timeOut =
      ziAPIPollDataEx s conn ev (toUInt32 timeOut) :=
  ⟨by decide, by decide, by decide, by decide, by decide, by decide, rfl, rfl, rfl, rfl⟩

/-! ## C21: overflow of the event queue -/

/-- C22: on a module that is executing, each of `ziAPIModSetDoubleData`,
`ziAPIModSetIntegerData`, `ziAPIModSetByteArray`, `ziAPIModSetString`,
`ziAPIModSubscribe` and `ziAPIModUnSubscribe` fails with the invalid-state error and
leaves the module, its parameters and its subscriptions as they were. -/
theorem module_state_guard (m : Module) (h : m.lifecycle_state = ModuleState.Executing)
    (path : String) (value : ZIDoubleData) (valueI : ZIIntegerData) (buffer : List Nat)
    (str : String) :
    ziAPIModSetDoubleData m path value = (ModuleResult.InvalidStateError, m) ∧
    ziAPIModSetIntegerData m path valueI = (ModuleResult.InvalidStateError, m) ∧
    ziAPIModSetByteArray m path buffer = (ModuleResult.InvalidStateError, m) ∧
    ziAPIModSetString m path str = (ModuleResult.InvalidStateError, m) ∧
    ziAPIModSubscribe m path = (ModuleResult.InvalidStateError, m) ∧
    ziAPIModUnSubscribe m path = (ModuleResult.InvalidStateError, m) := by
  simp [ziAPIModSetDoubleData, ziAPIModSetIntegerData, ziAPIModSetByteArray,
    ziAPIModSetString, ziAPIModSubscribe, ziAPIModUnSubscribe, Module.set_parameter,
    Module.subscribe, Module.unsubscribe, ModuleState.acceptsConfiguration, h]

/-- The started sweeper is executing, keeps its parameter and subscription, and refuses
a further subscription. -/
theorem module_state_guard_witness :
    executingSweeper.lifecycle_state = ModuleState.Executing ∧
    executingSweeper.subscriptions = ["/dev574/demods/0/sample"] ∧
    ziAPIModSubscribe executingSweeper "/dev574/demods/1/sample" =
      (ModuleResult.InvalidStateError, executingSweeper) :=
  ⟨by decide, by decide,
   (module_state_guard executingSweeper (by decide) "/dev574/demods/1/sample"
      ⟨0⟩ 0 [] "").2.2.2.2.1⟩

/-! ## C23: wrappers called from two threads -/

/-- The statement-level wrappers, run by one thread from the call to the return, do
what the wrappers `ziConnect`, `ziSetValueD`, `ziSyncSetValueD`, `ziTogglePID1` and
`ziGetPID1` do: same library state, same file-scope variables, same output and same
returned value. -/
theorem wrapper_statements_run_alone {σ : Type} (api : ZIAPI σ) (s : σ) (g : Globals)
    (err : List StderrLine) (conn : ZIConnection) (value value0 : ZIDoubleData)
    (valueI : ZIIntegerData) :
    (ziConnect api s g conn).sameAs err
      (WrapperThread.runAlone (ziConnectCode api conn)
        { state := s, globals := g, stderr := err }) ∧
    (ziSetValueD api s g conn value).sameAs err
      (WrapperThread.runAlone (ziSetValueDCode api conn value)
        { state := s, globals := g, stderr := err }) ∧
    (ziSyncSetValueD api s g conn value).sameAs err
      (WrapperThread.runAlone (ziSyncSetValueDCode api conn value)
        { state := s, globals := g, stderr := err }) ∧
    (ziTogglePID1 api s g conn valueI).sameAs err
      (WrapperThread.runAlone (ziTogglePID1Code api conn valueI)
        { state := s, globals := g, stderr := err }) ∧
    (ziGetPID1 api s g conn value0).sameAs err
      (WrapperThread.runAlone (ziGetPID1Code api conn value0)
        { state := s, globals := g, stderr := err }) := by
  refine ⟨?_, ?_, ?_, ?_, ?_⟩
  · unfold ziConnect
    rcases hc : api.ziAPIConnect s conn serverAddress 8005 with ⟨r, s1⟩
    by_cases h : r = ZI_INFO_SUCCESS <;>
      simp [WrapperRun.sameAs, WrapperThread.runAlone, runSchedule, WrapperThread.step,
        WrapperThread.start, ziConnectCode, hc, h]
  · unfold ziSetValueD
    rcases hc : api.ziAPISetValueD s conn "/dev574/pids/0/setpoint" value with ⟨r, s1⟩
    by_cases h : r = ZI_INFO_SUCCESS <;>
      simp [WrapperRun.sameAs, WrapperThread.runAlone, runSchedule, WrapperThread.step,
        WrapperThread.start, ziSetValueDCode, hc, h]
  · unfold ziSyncSetValueD
    rcases hc : api.ziAPISyncSetValueD s conn "/dev574/pids/0/setpoint" value with
      ⟨r, v1, s1⟩
    by_cases h : r = ZI_INFO_SUCCESS <;>
      simp [WrapperRun.sameAs, WrapperThread.runAlone, runSchedule, WrapperThread.step,
        WrapperThread.start, ziSyncSetValueDCode, hc, h]
  · unfold ziTogglePID1
    rcases hc : api.ziAPISyncSetValueI s conn "/dev574/pids/0/enable" valueI with
      ⟨r, v1, s1⟩
    by_cases h : r = ZI_INFO_SUCCESS <;>
      simp [WrapperRun.sameAs, WrapperThread.runAlone, runSchedule, WrapperThread.step,
        WrapperThread.start, ziTogglePID1Code, hc, h]
  · unfold ziGetPID1
    rcases hc : api.ziAPIGetValueD s conn "/dev574/pids/0/setpoint" with ⟨r, wr, s1⟩
    by_cases h : r = ZI_INFO_SUCCESS <;>
      simp [WrapperRun.sameAs, WrapperThread.runAlone, runSchedule, WrapperThread.step,
        WrapperThread.start, ziGetPID1Code, hc, h]

/-- C23, as stated, fails: two threads call `ziConnect`, one on connection 1, where
`ziAPIConnect` succeeds, one on connection 2, where it fails. When the second thread
executes `retVal = ziAPIConnect(...)` before the first thread tests `retVal`, the first
thread reports and returns the second thread's failure, although its own library call
returned `ZI_INFO_SUCCESS` and the same call made alone returns 0. -/
theorem wrappers_interfere_across_connections :
    (secondFailsAPI.ziAPIConnect () 1 serverAddress 8005).1 = ZI_INFO_SUCCESS ∧
    (WrapperThread.runAlone (ziConnectCode secondFailsAPI 1)
      { state := (), globals := initialGlobals, stderr := [] }).2.ret = some 0 ∧
    (runSchedule (ziConnectCode secondFailsAPI 1) (ziConnectCode secondFailsAPI 2)
      { state := (), globals := initialGlobals, stderr := [] }
      WrapperThread.start WrapperThread.start overlappingSchedule).2.1.ret =
      some ZI_ERROR_SOCKET_CONNECT ∧
    (runSchedule (ziConnectCode secondFailsAPI 1) (ziConnectCode secondFailsAPI 2)
      { state := (), globals := initialGlobals, stderr := [] }
      WrapperThread.start WrapperThread.start overlappingSchedule).1.stderr =
      [StderrLine.cantConnect "Error", StderrLine.cantConnect "Error"] := by
  decide

/-- C23, amended: the wrappers of `setpointPID1.c` keep their result in the file-scope
`retVal`, whatever the connection, so one connection per thread does not separate them;
two wrapper calls that do not overlap (the first returns before the second starts, as
under mutual exclusion) each return the result code of their own library call. -/
theorem wrappers_serial_no_interference {σ : Type} (codeA codeB : StatusWrapper σ)
    (sh : Shared σ) :
    (runSchedule codeA codeB sh WrapperThread.start WrapperThread.start
      serialSchedule).2.1.ret = some (codeA.call sh.state).1 ∧
    (runSchedule codeA codeB sh WrapperThread.start WrapperThread.start
      serialSchedule).2.2.ret = some (codeB.call (codeA.call sh.state).2.2).1 ∧
    (runSchedule codeA codeB sh WrapperThread.start WrapperThread.start
      serialSchedule).1.state = (codeB.call (codeA.call sh.state).2.2).2.2 := by
  rcases ha : codeA.call sh.state with ⟨ra, la, sa⟩
  rcases hb : codeB.call sa with ⟨rb, lb, sb⟩
  by_cases h1 : ra = ZI_INFO_SUCCESS <;> by_cases h2 : rb = ZI_INFO_SUCCESS <;>
    simp [serialSchedule, runSchedule, WrapperThread.step, WrapperThread.start, ha, hb,
      h1, h2]

/-! ## C24: no entry in the `interfaces` property -/

/-- C24, evaluated on the code: in a run of `ziCreateAPISession` that read the `interfaces`
property successfully and found no entry in it (it is empty or holds only newlines),
`strtok_r` yields the null pointer, which is handed to `strcmp`: the call does not return
(`ret = none`). The branch that logs "could not read an available interface" and returns 1
is never taken, and `ziAPIConnectDevice` is not called. -/
theorem ziCreateAPISession_null_interface {σ : Type} (api : ZIAPI σ) (s : σ)
    (conn : ZIConnection) (deviceAddress : String) (maxSupportedApilevel : Int)
    (run : SessionRun σ)
    (hrun : ziCreateAPISession api s conn deviceAddress maxSupportedApilevel = run)
    (interfaces : String)
    (hq : Call.ziAPIDiscoveryGetValueS conn run.deviceId "interfaces" ZI_INFO_SUCCESS
      interfaces ∈ run.trace)
    (hnone : firstNonEmptyEntry interfaces = none) :
    run.ret = none ∧
    (∀ d, Call.ziAPIWriteDebugLog 4 (Message.noInterface d) ∉ run.trace) ∧
    run.trace.all (fun c => !c.isConnectDevice) = true := by
  rw [← strtok_r_newline] at hnone
  revert hq
  refine ziCreateAPISession_elim api s conn deviceAddress maxSupportedApilevel
    (fun r0 => r0 = run → _) ?_ ?_ ?_ ?_ ?_ ?_ ?_ ?_ ?_ hrun
  case refine_9 =>
    intro deviceId s0 s1 serveraddress s2 serverport s3 apilevel s4 connected s5 s6
      h0 h1 h2 h3 h4 h5 h6
    refine connectDeviceStep_elim api s6 _ conn deviceId connected
      (fun r0 => r0 = run → _) ?_ ?_ ?_ ?_ ?_ ?_
    all_goals intros
    all_goals clear hrun
    all_goals intro hr
    all_goals subst hr
    all_goals simp_all [catchRuntimeError_trace, catchRuntimeError_ret,
      catchRuntimeError_deviceId, Call.isConnectDevice, isError]
    · intro e; exact absurd e.symm (by assumption)
    all_goals intro e
    all_goals subst e
    all_goals simp_all
  all_goals intros
  all_goals clear hrun
  all_goals intro hr
  all_goals subst hr
  all_goals simp_all [catchRuntimeError_trace, catchRuntimeError_ret,
    catchRuntimeError_deviceId, Call.isConnectDevice, isErrorCalls]

/-- The run of `ziCreateAPISession` for a device that is not connected and whose
`interfaces` property holds only newlines ends without a return value. -/
theorem ziCreateAPISession_null_interface_witness :
    (ziCreateAPISession
      (scriptedAPI { unconnectedScript with interfaces := (ZI_INFO_SUCCESS, "\n\n") })
      () 1 "dev1234" ZI_API_VERSION_4).ret = none :=
  (ziCreateAPISession_null_interface
    (scriptedAPI { unconnectedScript with interfaces := (ZI_INFO_SUCCESS, "\n\n") })
    () 1 "dev1234" ZI_API_VERSION_4 _ rfl "\n\n" (by decide) (by decide)).1

/-! ## C25: the values `ziCreateAPISession` returns -/

/-- C25: a run of `ziCreateAPISession` returns only 0 or 1 (the one run that returns
nothing is the run in which `strtok_r` found no entry in the `interfaces` property); it
returns 0 only if `ziAPIDiscoveryFind` succeeded, the `discoverable` property was read as
1 and `ziAPIConnectEx` was called and returned `ZI_INFO_SUCCESS`; and if
`ziAPIDiscoveryFind` fails, or the `discoverable` property is not 1, it returns 1 and
`ziAPIConnectEx` is not called. -/
theorem ziCreateAPISession_return_values {σ : Type} (api : ZIAPI σ) (s : σ)
    (conn : ZIConnection) (deviceAddress : String) (maxSupportedApilevel : Int)
    (run : SessionRun σ)
    (hrun : ziCreateAPISession api s conn deviceAddress maxSupportedApilevel = run) :
    (∀ r, run.ret = some r → r = 0 ∨ r = 1) ∧
    (run.ret = none → ∃ interfaces,
      Call.ziAPIDiscoveryGetValueS conn run.deviceId "interfaces" ZI_INFO_SUCCESS
        interfaces ∈ run.trace ∧ strtok_r interfaces "\n" = none) ∧
    (run.ret = some 0 →
      (∃ s0, api.ziAPIDiscoveryFind s conn deviceAddress =
        (ZI_INFO_SUCCESS, run.deviceId, s0) ∧
        ∃ s1, api.ziAPIDiscoveryGetValueI s0 conn run.deviceId "discoverable" =
          (ZI_INFO_SUCCESS, 1, s1)) ∧
      ∃ hostname port apiLevel,
        Call.ziAPIConnectEx conn hostname port apiLevel none ZI_INFO_SUCCESS ∈ run.trace) ∧
    ((api.ziAPIDiscoveryFind s conn deviceAddress).1 ≠ ZI_INFO_SUCCESS →
      run.ret = some 1 ∧ run.trace.all (fun c => !c.isConnectEx) = true) ∧
    (∀ deviceId s0,
      api.ziAPIDiscoveryFind s conn deviceAddress = (ZI_INFO_SUCCESS, deviceId, s0) →
      (api.ziAPIDiscoveryGetValueI s0 conn deviceId "discoverable").2.1 ≠ 1 →
      run.ret = some 1 ∧ run.trace.all (fun c => !c.isConnectEx) = true) := by
  refine ziCreateAPISession_elim api s conn deviceAddress maxSupportedApilevel
    (fun r0 => r0 = run → _) ?_ ?_ ?_ ?_ ?_ ?_ ?_ ?_ ?_ hrun
  case refine_9 =>
    intro deviceId s0 s1 serveraddress s2 serverport s3 apilevel s4 connected s5 s6
      h0 h1 h2 h3 h4 h5 h6
    refine connectDeviceStep_elim api s6 _ conn deviceId connected
      (fun r0 => r0 = run → _) ?_ ?_ ?_ ?_ ?_ ?_
    all_goals intros
    all_goals clear hrun
    all_goals intro hr
    all_goals subst hr
    all_goals simp_all [catchRuntimeError_trace, catchRuntimeError_ret,
      catchRuntimeError_deviceId, Call.isConnectEx, isError]
  all_goals intros
  all_goals clear hrun
  all_goals intro hr
  all_goals subst hr
  all_goals simp_all [catchRuntimeError_trace, catchRuntimeError_ret,
    catchRuntimeError_deviceId, Call.isConnectEx, isErrorCalls, isError]

/-- On the scenario of the spec `ziCreateAPISession` returns 0, so `ziAPIConnectEx` was
called and succeeded. -/
theorem ziCreateAPISession_return_values_witness :
    (ziCreateAPISession (scriptedAPI scenarioScript) () 1 "dev1234"
      ZI_API_VERSION_4).ret = some 0 ∧
    ∃ hostname port apiLevel,
      Call.ziAPIConnectEx 1 hostname port apiLevel none ZI_INFO_SUCCESS ∈
        (ziCreateAPISession (scriptedAPI scenarioScript) () 1 "dev1234"
          ZI_API_VERSION_4).trace :=
  ⟨by decide,
   ((ziCreateAPISession_return_values (scriptedAPI scenarioScript) () 1 "dev1234"
      ZI_API_VERSION_4 _ rfl).2.2.1 (by decide)).2⟩

/-! ## C26: the status the wrappers return -/

/-- C26: each status-returning wrapper of `setpointPID1.c` returns 0 exactly when the
library call it makes returned `ZI_INFO_SUCCESS`, and leaves that call's result code in
the global `retVal`; `ziConnect`, `ziSetValueD`, `ziSyncSetValueD`, `ziTogglePID1` and
`ziGetPID1` return the result code itself, `ziInit` returns 1 for every other code. -/
theorem wrapper_status_contract {σ : Type} (api : ZIAPI σ) (s : σ) (g : Globals)
    (conn : ZIConnection) (value value0 : ZIDoubleData) (valueI : ZIIntegerData) :
    (((ziInit api s g).ret = 0 ↔ (api.ziAPIInit s).1 = ZI_INFO_SUCCESS) ∧
      (ziInit api s g).globals.retVal = (api.ziAPIInit s).1 ∧
      (ziInit api s g).ret = if (api.ziAPIInit s).1 = ZI_INFO_SUCCESS then 0 else 1) ∧
    (((ziConnect api s g conn).ret = 0 ↔
        (api.ziAPIConnect s conn serverAddress 8005).1 = ZI_INFO_SUCCESS) ∧
      (ziConnect api s g conn).globals.retVal =
        (api.ziAPIConnect s conn serverAddress 8005).1 ∧
      (ziConnect api s g conn).ret = (api.ziAPIConnect s conn serverAddress 8005).1) ∧
    (((ziSetValueD api s g conn value).ret = 0 ↔
        (api.ziAPISetValueD s conn "/dev574/pids/0/setpoint" value).1 = ZI_INFO_SUCCESS) ∧
      (ziSetValueD api s g conn value).globals.retVal =
        (api.ziAPISetValueD s conn "/dev574/pids/0/setpoint" value).1 ∧
      (ziSetValueD api s g conn value).ret =
        (api.ziAPISetValueD s conn "/dev574/pids/0/setpoint" value).1) ∧
    (((ziSyncSetValueD api s g conn value).ret = 0 ↔
        (api.ziAPISyncSetValueD s conn "/dev574/pids/0/setpoint" value).1 =
          ZI_INFO_SUCCESS) ∧
      (ziSyncSetValueD api s g conn value).globals.retVal =
        (api.ziAPISyncSetValueD s conn "/dev574/pids/0/setpoint" value).1 ∧
      (ziSyncSetValueD api s g conn value).ret =
        (api.ziAPISyncSetValueD s conn "/dev574/pids/0/setpoint" value).1) ∧
    (((ziTogglePID1 api s g conn valueI).ret = 0 ↔
        (api.ziAPISyncSetValueI s conn "/dev574/pids/0/enable" valueI).1 =
          ZI_INFO_SUCCESS) ∧
      (ziTogglePID1 api s g conn valueI).globals.retVal =
        (api.ziAPISyncSetValueI s conn "/dev574/pids/0/enable" valueI).1 ∧
      (ziTogglePID1 api s g conn valueI).ret =
        (api.ziAPISyncSetValueI s conn "/dev574/pids/0/enable" valueI).1) ∧
    (((ziGetPID1 api s g conn value0).ret = 0 ↔
        (api.ziAPIGetValueD s conn "/dev574/pids/0/setpoint").1 = ZI_INFO_SUCCESS) ∧
      (ziGetPID1 api s g conn value0).globals.retVal =
        (api.ziAPIGetValueD s conn "/dev574/pids/0/setpoint").1 ∧
      (ziGetPID1 api s g conn value0).ret =
        (api.ziAPIGetValueD s conn "/dev574/pids/0/setpoint").1) := by
  have z : ZI_INFO_SUCCESS = 0 := rfl
  refine ⟨?_, ?_, ?_, ?_, ?_, ?_⟩
  · unfold ziInit
    rcases api.ziAPIInit s with ⟨r, c, s1⟩
    by_cases h : r = ZI_INFO_SUCCESS
    · simp [h, z]
    · simp [h]
  · unfold ziConnect
    rcases api.ziAPIConnect s conn serverAddress 8005 with ⟨r, s1⟩
    by_cases h : r = ZI_INFO_SUCCESS
    · simp [h, z]
    · have h0 : r ≠ 0 := fun e => h (e.trans z.symm)
      simp [h, z, h0]
  · unfold ziSetValueD
    rcases api.ziAPISetValueD s conn "/dev574/pids/0/setpoint" value with ⟨r, s1⟩
    by_cases h : r = ZI_INFO_SUCCESS
    · simp [h, z]
    · have h0 : r ≠ 0 := fun e => h (e.trans z.symm)
      simp [h, z, h0]
  · unfold ziSyncSetValueD
    rcases api.ziAPISyncSetValueD s conn "/dev574/pids/0/setpoint" value with ⟨r, v, s1⟩
    by_cases h : r = ZI_INFO_SUCCESS
    · simp [h, z]
    · have h0 : r ≠ 0 := fun e => h (e.trans z.symm)
      simp [h, z, h0]
  · unfold ziTogglePID1
    rcases api.ziAPISyncSetValueI s conn "/dev574/pids/0/enable" valueI with ⟨r, v, s1⟩
    by_cases h : r = ZI_INFO_SUCCESS
    · simp [h, z]
    · have h0 : r ≠ 0 := fun e => h (e.trans z.symm)
      simp [h, z, h0]
  · unfold ziGetPID1
    rcases api.ziAPIGetValueD s conn "/dev574/pids/0/setpoint" with ⟨r, w, s1⟩
    by_cases h : r = ZI_INFO_SUCCESS
    · simp [h, z]
    · have h0 : r ≠ 0 := fun e => h (e.trans z.symm)
      simp [h, z, h0]

end Cicero
